import Mathlib

/-
Verification development for the AgentPaul multi-source scraping and
aggregation pipeline (TypeScript), shallowly embedded in Lean 4.

Modelling conventions, used throughout:
- JavaScript numbers are modelled as rationals. A value that may be
  non-finite (NaN or an infinity, as produced by parseFloat or a
  division by zero) is modelled as JSNum, an Option over the rationals,
  with none standing for any non-finite value.
- Network fetches, page rendering, DOM evaluation and the JSON blobs
  they yield are modelled as explicit inputs: each scraper takes the
  outcome of its single page fetch as an Except or structure argument.
  A promise that rejects is an Except.error; the data a successful
  page evaluation returns is passed as a structure mirroring exactly
  the object literal built in the page.evaluate callback.
- A regex match call on free text is modelled by passing the match
  result (the tuple of capture groups, or none) as part of the fetched
  page data; the numeric post-processing of the captures is embedded
  fully.
- String builtins (trim, toLowerCase, normalize NFD) are embedded on
  List Char; toLowerCase and NFD are modelled on the ASCII + Latin-1
  fragment actually exercised by restaurant names, via explicit tables.
-/

set_option maxHeartbeats 1600000

attribute [local semireducible] Rat.add Rat.mul Rat.sub Rat.inv Rat.ofScientific

/-- JSNum models a JavaScript number: some q is the finite value q, none
stands for a non-finite value (NaN or an infinity). -/
abbrev JSNum := Option ℚ

/-- jsRound models JavaScript Math.round: half-way cases round toward
positive infinity, so Math.round x = floor (x + 1/2) for every finite x. -/
def jsRound (q : ℚ) : ℚ := ⌊q + 1/2⌋

/-- jsRoundN lifts jsRound to JSNum; Math.round of a non-finite value is
non-finite. -/
def jsRoundN (n : JSNum) : JSNum := n.map jsRound

/-- jsAdd models + on JavaScript numbers: any non-finite operand makes the
result non-finite. -/
def jsAdd (a b : JSNum) : JSNum :=
  match a, b with
  | some x, some y => some (x + y)
  | _, _ => none

/-- jsMul models * on JavaScript numbers, with the same non-finite
propagation as jsAdd (the finite operands arising here are never the
0 * inf case). -/
def jsMul (a b : JSNum) : JSNum :=
  match a, b with
  | some x, some y => some (x * y)
  | _, _ => none

/-- jsDiv models / on JavaScript numbers: division by zero and any
non-finite operand give a non-finite result. -/
def jsDiv (a b : JSNum) : JSNum :=
  match a, b with
  | some x, some y => if y = 0 then none else some (x / y)
  | _, _ => none

/-- jsGtZero models the comparison n > 0 on a JavaScript number: false for
NaN (every comparison with NaN is false). An infinity never reaches the
places this is used, so none > 0 = false is faithful. -/
def jsGtZero (n : JSNum) : Bool :=
  match n with
  | some q => 0 < q
  | none => false

/-- isDigitChar recognises the ASCII digits 0-9, as the character class
in the scrapers' numeric regexes does. -/
def isDigitChar (c : Char) : Bool := 48 ≤ c.toNat && c.toNat ≤ 57

/-- digitVal is the numeric value of an ASCII digit. -/
def digitVal (c : Char) : ℕ := c.toNat - 48

/-- natOfDigits reads a digit list as a base-10 natural number. -/
def natOfDigits (l : List Char) : ℕ := l.foldl (fun n c => 10 * n + digitVal c) 0

/-- isJsWhitespace models the characters String.prototype.trim and the
parse functions skip (the ASCII fragment of the WhiteSpace and
LineTerminator productions). -/
def isJsWhitespace (c : Char) : Bool :=
  c = ' ' || c = '\t' || c = '\n' || c = '\r' || c.toNat = 11 || c.toNat = 12

/-- trimWs models String.prototype.trim on a character list. -/
def trimWs (l : List Char) : List Char :=
  ((l.dropWhile isJsWhitespace).reverse.dropWhile isJsWhitespace).reverse

/-- parseSign consumes an optional leading + or - and returns the sign. -/
def parseSign (l : List Char) : ℚ × List Char :=
  match l with
  | '-' :: rest => (-1, rest)
  | '+' :: rest => (1, rest)
  | _ => (1, l)

/-- jsParseFloat models the JavaScript parseFloat builtin on the decimal
literals it is fed here: skip leading whitespace, an optional sign, then
the longest prefix of the form digits [ . digits ] [ e/E sign digits ];
if that prefix contains no digit the result is NaN (none). The Infinity
literal is not modelled; no caller in this code base can feed it. -/
def jsParseFloat (s : String) : JSNum :=
  let l := s.data.dropWhile isJsWhitespace
  let (sign, l1) := parseSign l
  let intPart := l1.takeWhile isDigitChar
  let l2 := l1.drop intPart.length
  let fracPart :=
    match l2 with
    | '.' :: rest => rest.takeWhile isDigitChar
    | _ => []
  let l3 :=
    match l2 with
    | '.' :: rest => rest.drop fracPart.length
    | _ => l2
  if intPart.isEmpty && fracPart.isEmpty then none
  else
    let mantissa : ℚ :=
      (natOfDigits intPart : ℚ) + (natOfDigits fracPart : ℚ) / (10 : ℚ) ^ fracPart.length
    let expVal : ℤ :=
      match l3 with
      | 'e' :: rest =>
        let (esign, r1) := parseSign rest
        let eDigits := r1.takeWhile isDigitChar
        if eDigits.isEmpty then 0 else (if esign = -1 then -1 else 1) * (natOfDigits eDigits : ℤ)
      | 'E' :: rest =>
        let (esign, r1) := parseSign rest
        let eDigits := r1.takeWhile isDigitChar
        if eDigits.isEmpty then 0 else (if esign = -1 then -1 else 1) * (natOfDigits eDigits : ℤ)
      | _ => 0
    some (sign * mantissa * (10 : ℚ) ^ expVal)

/-- jsParseInt models parseInt(s, 10): skip leading whitespace, an
optional sign, then the longest decimal digit prefix; NaN (none) when no
digit is consumed. -/
def jsParseInt (s : String) : JSNum :=
  let l := s.data.dropWhile isJsWhitespace
  let (sign, l1) := parseSign l
  let digits := l1.takeWhile isDigitChar
  if digits.isEmpty then none else some (sign * (natOfDigits digits : ℕ))

/-- isMagnitudeSuffix recognises the compact-count suffix characters, as
the character class of the regex at the end of parseCount does. -/
def isMagnitudeSuffix (c : Char) : Bool := c = 'K' || c = 'k' || c = 'M' || c = 'm'

/-- parseCount embeds the private parseCount helper that appears, with
identical bodies, in src/scraper/instagram.ts and src/scraper/tiktok.ts:
an empty (falsy) string gives 0; otherwise the commas are stripped and
the string trimmed; a trailing K/k means parseFloat of the rest times
1000, rounded; M/m the same times 1000000; otherwise parseInt-or-0.
cleanedCount is the comma-stripped trimmed form both branches share. -/
def cleanedCount (s : String) : List Char :=
  trimWs (s.data.filter (fun c => c ≠ ','))

/-- parseCount embeds the suffix dispatch described above. -/
def parseCount (s : String) : JSNum :=
  if s = "" then some 0
  else
    let cleaned : List Char := cleanedCount s
    match cleaned.getLast? with
    | some c =>
      if c = 'K' || c = 'k' then
        (jsParseFloat (String.mk cleaned.dropLast)).map (fun n => jsRound (n * 1000))
      else if c = 'M' || c = 'm' then
        (jsParseFloat (String.mk cleaned.dropLast)).map (fun n => jsRound (n * 1000000))
      else
        some ((jsParseInt (String.mk cleaned)).getD 0)
    | none => some ((jsParseInt (String.mk cleaned)).getD 0)

example : parseCount "12.3K" = some 12300 := by decide
example : parseCount "1,204" = some 1204 := by decide
example : parseCount "" = some 0 := by decide
example : parseCount "abc" = some 0 := by decide
example : parseCount "k" = none := by decide
example : parseCount "2M" = some 2000000 := by decide

/-
Slug generation, from src/scraper/index.ts generateSlug:
  name.toLowerCase()
      .normalize('NFD')
      .replace(/[̀-ͯ]/g, '')
      .replace(/[^a-z0-9]+/g, '-')
      .replace(/ -+ /g, '-') (a hyphen run to one hyphen)
      .replace(/^-|-$/g, '')
The platform builtins toLowerCase and normalize('NFD') are modelled on
the ASCII plus Latin-1 fragment by explicit tables; all other characters
are left unchanged by them (they are wiped to a hyphen by the following
replace anyway, so the model is exact on every character the tables
cover and on every character outside the Latin-1 letters).
-/

/-- isLowerAlnum is the character class [a-z0-9] of the slug regexes. -/
def isLowerAlnum (c : Char) : Bool :=
  (97 ≤ c.toNat && c.toNat ≤ 122) || (48 ≤ c.toNat && c.toNat ≤ 57)

/-- lowerTable models String.prototype.toLowerCase beyond ASCII on the
Latin-1 uppercase letters. -/
def lowerTable : List (Char × Char) :=
  [('À', 'à'), ('Á', 'á'), ('Â', 'â'), ('Ã', 'ã'), ('Ä', 'ä'), ('Å', 'å'),
   ('Æ', 'æ'), ('Ç', 'ç'), ('È', 'è'), ('É', 'é'), ('Ê', 'ê'), ('Ë', 'ë'),
   ('Ì', 'ì'), ('Í', 'í'), ('Î', 'î'), ('Ï', 'ï'), ('Ñ', 'ñ'), ('Ò', 'ò'),
   ('Ó', 'ó'), ('Ô', 'ô'), ('Õ', 'õ'), ('Ö', 'ö'), ('Ù', 'ù'), ('Ú', 'ú'),
   ('Û', 'û'), ('Ü', 'ü'), ('Ý', 'ý')]

/-- toLowerChar models toLowerCase characterwise: ASCII A-Z shift by 32,
Latin-1 uppercase via lowerTable, all else unchanged. -/
def toLowerChar (c : Char) : Char :=
  if 65 ≤ c.toNat && c.toNat ≤ 90 then Char.ofNat (c.toNat + 32)
  else (lowerTable.lookup c).getD c

/-- nfdTable models Unicode normalization form D on the Latin-1
accented lowercase letters: each decomposes into a base letter followed
by a combining mark in the range U+0300 to U+036F. -/
def nfdTable : List (Char × List Char) :=
  [('à', ['a', '̀']), ('á', ['a', '́']), ('â', ['a', '̂']),
   ('ã', ['a', '̃']), ('ä', ['a', '̈']), ('å', ['a', '̊']),
   ('ç', ['c', '̧']), ('è', ['e', '̀']), ('é', ['e', '́']),
   ('ê', ['e', '̂']), ('ë', ['e', '̈']), ('ì', ['i', '̀']),
   ('í', ['i', '́']), ('î', ['i', '̂']), ('ï', ['i', '̈']),
   ('ñ', ['n', '̃']), ('ò', ['o', '̀']), ('ó', ['o', '́']),
   ('ô', ['o', '̂']), ('õ', ['o', '̃']), ('ö', ['o', '̈']),
   ('ù', ['u', '̀']), ('ú', ['u', '́']), ('û', ['u', '̂']),
   ('ü', ['u', '̈']), ('ý', ['y', '́']), ('ÿ', ['y', '̈'])]

/-- nfdChar decomposes one character under the modelled NFD. -/
def nfdChar (c : Char) : List Char := (nfdTable.lookup c).getD [c]

/-- nfdList applies the modelled NFD to a whole character list. -/
def nfdList (l : List Char) : List Char := l.flatMap nfdChar

/-- isCombiningMark is the character class [̀-ͯ] of the
accent-stripping replace. -/
def isCombiningMark (c : Char) : Bool := 0x300 ≤ c.toNat && c.toNat ≤ 0x36F

/-- stripCombining models replace(/[̀-ͯ]/g, ''). -/
def stripCombining (l : List Char) : List Char := l.filter (fun c => !isCombiningMark c)

/-- replaceRunsGo walks the characters replacing each maximal run of
non-alphanumerics with one hyphen, as replace(/[^a-z0-9]+/g, '-') does;
the flag records whether the walk is inside such a run (the hyphen for
the run has already been emitted). -/
def replaceRunsGo : Bool → List Char → List Char
  | _, [] => []
  | inRun, c :: rest =>
    if isLowerAlnum c then c :: replaceRunsGo false rest
    else if inRun then replaceRunsGo true rest
    else '-' :: replaceRunsGo true rest

/-- replaceRuns models replace(/[^a-z0-9]+/g, '-'). -/
def replaceRuns (l : List Char) : List Char := replaceRunsGo false l

/-- collapseGo walks the characters collapsing each run of hyphens to a
single hyphen, as the hyphen-run replace does; the flag records whether the
previous character was part of a hyphen run already emitted. -/
def collapseGo : Bool → List Char → List Char
  | _, [] => []
  | prev, c :: rest =>
    if c = '-' then
      if prev then collapseGo true rest else '-' :: collapseGo true rest
    else c :: collapseGo false rest

/-- collapseHyphens models the replace collapsing hyphen runs. -/
def collapseHyphens (l : List Char) : List Char := collapseGo false l

/-- trimLeadHyphen removes one leading hyphen, when present. -/
def trimLeadHyphen (l : List Char) : List Char :=
  match l with
  | c :: rest => if c = '-' then rest else c :: rest
  | [] => []

/-- trimHyphens models replace(/^-|-$/g, ''): the anchored alternation
removes at most one hyphen at the start and at most one at the end. -/
def trimHyphens (l : List Char) : List Char :=
  ((trimLeadHyphen l).reverse |> trimLeadHyphen).reverse

/-- generateSlug embeds generateSlug from src/scraper/index.ts. -/
def generateSlug (s : String) : String :=
  String.mk
    (trimHyphens (collapseHyphens (replaceRuns
      (stripCombining (nfdList (s.data.map toLowerChar))))))

example : generateSlug "Café – Rösti!" = "cafe-rosti" := by decide
example : generateSlug "  Chez Marco  " = "chez-marco" := by decide
example : generateSlug "---" = "" := by decide
example : generateSlug "" = "" := by decide

/-- matchesSlugShape decides the regular expression
shape ^[a-z0-9]+(-[a-z0-9]+)*$: one or more groups of one or more lowercase alphanumeric words separated
by single hyphens, anchored at both ends; noDoubleHyphen checks the
single-hyphen separation. -/
def noDoubleHyphen : List Char → Bool
  | [] => true
  | [_] => true
  | a :: b :: rest => !(a = '-' && b = '-') && noDoubleHyphen (b :: rest)

/-- matchesSlugShape decides the anchored slug pattern itself. -/
def matchesSlugShape (l : List Char) : Bool :=
  match l with
  | [] => false
  | _ => l.head? ≠ some '-' && l.getLast? ≠ some '-' &&
      l.all (fun c => isLowerAlnum c || c = '-') && noDoubleHyphen l

/-
Photo analysis and ranking, from src/scraper/photo-analyzer.ts.
The Claude Vision call and the JSON parse of its reply are modelled as
the outcome argument of analyzePhoto: an Except that either carries the
parsed JSON object (a ParsedAnalysis) or the error of any failing step
(image fetch, API call, JSON parse), which the catch turns into null.
-/

/-- PhotoType is the type enum of the analyzer. -/
inductive PhotoType where
  | FOOD | AMBIANCE | EXTERIOR | PEOPLE | OTHER
deriving DecidableEq, Repr

/-- PhotoRecommendation is the recommendation enum of the analyzer. -/
inductive PhotoRecommendation where
  | HERO | GALLERY | SKIP
deriving DecidableEq, Repr

/-- ParsedAnalysis is the JSON object the vision model returns for one
photo, after JSON.parse of the cleaned reply text. -/
structure ParsedAnalysis where
  ptype : PhotoType
  quality : ℚ
  visualAppeal : ℚ
  recommendation : PhotoRecommendation
  description : String
deriving DecidableEq, Repr

/-- PhotoAnalysis mirrors the PhotoAnalysis interface of
photo-analyzer.ts. -/
structure PhotoAnalysis where
  url : String
  ptype : PhotoType
  quality : ℚ
  visualAppeal : ℚ
  recommendation : PhotoRecommendation
  description : String
  score : ℚ
deriving DecidableEq, Repr

/-- computeScore embeds the combined-score computation of analyzePhoto:
base is the mean of quality and visualAppeal, then the conditional
multiplier bumps are applied in source order, then the result is rounded
to one decimal via Math.round(score * 10) / 10. -/
def computeScore (p : ParsedAnalysis) : ℚ :=
  let s0 : ℚ := (p.quality + p.visualAppeal) / 2
  let s1 : ℚ := if p.ptype = PhotoType.FOOD then s0 * 1.3 else s0
  let s2 : ℚ := if p.ptype = PhotoType.AMBIANCE then s1 * 1.1 else s1
  let s3 : ℚ := if p.recommendation = PhotoRecommendation.HERO then s2 * 1.2 else s2
  let s4 : ℚ := if p.recommendation = PhotoRecommendation.SKIP then s3 * 0.3 else s3
  jsRound (s4 * 10) / 10

/-- analyzePhoto embeds analyzePhoto of photo-analyzer.ts: on any failure
of the fetch/vision/parse pipeline the catch returns null; otherwise the
PhotoAnalysis record is built with the combined score. -/
def analyzePhoto (url : String) (outcome : Except String ParsedAnalysis) :
    Option PhotoAnalysis :=
  match outcome with
  | .error _ => none
  | .ok p =>
    some { url := url, ptype := p.ptype, quality := p.quality,
           visualAppeal := p.visualAppeal, recommendation := p.recommendation,
           description := p.description, score := computeScore p }

/-- scoreGe is the before-or-equal order of the descending sort
results.sort((a, b) => b.score - a.score); a stable sort with this
comparator puts a before b exactly when a.score is at least b.score. -/
def scoreGe (a b : PhotoAnalysis) : Prop := b.score ≤ a.score

instance : DecidableRel scoreGe := fun a b => inferInstanceAs (Decidable (b.score ≤ a.score))

instance : IsTotal PhotoAnalysis scoreGe := ⟨fun a b => le_total b.score a.score⟩

instance : IsTrans PhotoAnalysis scoreGe := ⟨fun _ _ _ h1 h2 => le_trans h2 h1⟩

/-- analysisResults is the results array of analyzeAndRankPhotos after
the batch loop: the first maxToAnalyze candidates are analyzed (batching
in threes only throttles, it preserves order) and the null outcomes are
filtered out. -/
def analysisResults (inputs : List (String × Except String ParsedAnalysis))
    (maxToAnalyze : ℕ) : List PhotoAnalysis :=
  (inputs.take maxToAnalyze).filterMap (fun p => analyzePhoto p.1 p.2)

/-- sortedResults is the results array after the in-place descending
stable sort by score. -/
def sortedResults (inputs : List (String × Except String ParsedAnalysis))
    (maxToAnalyze : ℕ) : List PhotoAnalysis :=
  List.insertionSort scoreGe (analysisResults inputs maxToAnalyze)

/-- isFoodPick is the filter for hero preference: FOOD type and not
recommended SKIP. -/
def isFoodPick (p : PhotoAnalysis) : Bool :=
  p.ptype = PhotoType.FOOD && p.recommendation ≠ PhotoRecommendation.SKIP

/-- isNonSkip is the fallback hero filter: not recommended SKIP. -/
def isNonSkip (p : PhotoAnalysis) : Bool :=
  p.recommendation ≠ PhotoRecommendation.SKIP

/-- selectHeroIdx gives the position in the sorted results of the photo
the hero selection picks: the first FOOD non-skip photo, else the first
non-skip photo, else none. Taking the first element of the filtered
array in the source equals taking the first position satisfying the
filter here. -/
def selectHeroIdx (sorted : List PhotoAnalysis) : Option ℕ :=
  match sorted.findIdx? isFoodPick with
  | some i => some i
  | none => sorted.findIdx? isNonSkip

/-- partitionGo embeds the gallery/skipped loop of analyzeAndRankPhotos
on the sorted results with the hero occurrence already removed; the
counter is the current gallery length. A photo recommended SKIP or
scoring below 4 is skipped; otherwise it joins the gallery while the
gallery holds fewer than 5, and is skipped once the gallery is full. -/
def partitionGo : List PhotoAnalysis → ℕ → List PhotoAnalysis × List PhotoAnalysis
  | [], _ => ([], [])
  | p :: rest, g =>
    if p.recommendation = PhotoRecommendation.SKIP || p.score < 4 then
      ((partitionGo rest g).1, p :: (partitionGo rest g).2)
    else if g < 5 then
      (p :: (partitionGo rest (g + 1)).1, (partitionGo rest (g + 1)).2)
    else
      ((partitionGo rest g).1, p :: (partitionGo rest g).2)

/-- RankedPhotos mirrors the RankedPhotos interface. -/
structure RankedPhotos where
  hero : Option PhotoAnalysis
  gallery : List PhotoAnalysis
  skipped : List PhotoAnalysis
  totalAnalyzed : ℕ
deriving DecidableEq, Repr

/-- analyzeAndRankPhotos embeds analyzeAndRankPhotos of
photo-analyzer.ts. The loop skips the hero by object identity; since
every analysis is a fresh object, that is the single occurrence at the
hero position, modelled by erasing that index. -/
def analyzeAndRankPhotos (inputs : List (String × Except String ParsedAnalysis))
    (maxToAnalyze : ℕ) : RankedPhotos :=
  let sorted := sortedResults inputs maxToAnalyze
  let hIdx := selectHeroIdx sorted
  let hero := hIdx.bind (fun i => sorted.get? i)
  let rest := match hIdx with
    | some i => sorted.eraseIdx i
    | none => sorted
  let parts := partitionGo rest 0
  { hero := hero, gallery := parts.1, skipped := parts.2,
    totalAnalyzed := sorted.length }

example :
    (analyzeAndRankPhotos
      [("a.jpg", .ok ⟨PhotoType.FOOD, 9, 9, PhotoRecommendation.HERO, "plat"⟩),
       ("b.jpg", .ok ⟨PhotoType.AMBIANCE, 6, 6, PhotoRecommendation.GALLERY, "salle"⟩),
       ("c.jpg", .ok ⟨PhotoType.OTHER, 2, 2, PhotoRecommendation.SKIP, "menu"⟩)]
      10).gallery.length = 1 := by decide

/-
Instagram scraper, from src/scraper/instagram.ts. The page fetch, the
meta-tag evaluation, the followers regex on the og description and the
window-sharedData JSON are modelled as the InstagramFetch argument: an
Except whose error covers every throwing step inside the try (including
the explicit profile-not-found throw on a 404 response), and whose ok
value carries the evaluated meta tags, the capture groups of the
followers/following/posts regex (none when the description does not
match) and the navigated sharedData user object (none when the script
payload is absent or its own try fails). The timeline edges arrive
already field-mapped as InstagramPost values; the slice to 12 is kept.
-/

/-- jsOrStr models the JavaScript s or-else d idiom on an optional
string: an absent or empty (falsy) string falls back to the default. -/
def jsOrStr (o : Option String) (d : String) : String :=
  match o with
  | some s => if s = "" then d else s
  | none => d

/-- jsOrStrV models s1 or-else d where s1 is a present string value. -/
def jsOrStrV (s d : String) : String := if s = "" then d else s

/-- removeFirstAt models handle.replace(at-sign, empty): a string pattern
replaces only the first occurrence. -/
def removeFirstAt : List Char → List Char
  | [] => []
  | c :: rest => if c = '@' then rest else c :: removeFirstAt rest

/-- normalizeHandle is the common handle.replace(at-sign, empty).trim()
prelude of the social scrapers. -/
def normalizeHandle (h : String) : String := String.mk (trimWs (removeFirstAt h.data))

/-- truncAtMatch removes everything from the first position whose suffix
matches the given prediction on suffixes, modelling a replace of an
unanchored pattern-dot-star with the empty string. The patterns used
never match the empty suffix. -/
def truncAtMatch (p : List Char → Bool) : List Char → List Char
  | [] => []
  | c :: rest => if p (c :: rest) then [] else c :: truncAtMatch p rest

/-- matchParenHandle recognises a suffix starting with a parenthesised
at-handle, the pattern of the first fullName replace in instagram.ts. -/
def matchParenHandle (l : List Char) : Bool :=
  match l with
  | '(' :: '@' :: rest =>
    let inner := rest.takeWhile (fun c => c ≠ ')')
    !inner.isEmpty && (rest.drop inner.length).head? = some ')'
  | _ => false

/-- matchMojibakeBullet recognises a suffix starting with the mojibake
bullet-Instagram marker of the second fullName replace. -/
def matchMojibakeBullet (l : List Char) : Bool :=
  "â€¢ Instagram".data.isPrefixOf l

/-- cleanInstagramTitle embeds the fullName computation: drop from a
parenthesised handle, drop from the mojibake bullet marker, trim. -/
def cleanInstagramTitle (title : String) : String :=
  String.mk (trimWs (truncAtMatch matchMojibakeBullet
    (truncAtMatch matchParenHandle title.data)))

/-- extractBioFromDescription embeds the private helper of instagram.ts:
split on the spaced dash, drop the counts prefix, rejoin and trim. -/
def extractBioFromDescription (desc : String) : String :=
  let parts := desc.splitOn " - "
  if parts.length > 1 then String.mk (trimWs ((" - ".intercalate (parts.drop 1)).data))
  else ""

/-- InstagramPost mirrors the InstagramPost interface; likes and
comments are the JSON counters after their or-zero defaults. -/
structure InstagramPost where
  imageUrl : String
  caption : String
  likes : ℚ
  comments : ℚ
  timestamp : String
deriving DecidableEq, Repr

/-- InstagramShared is the navigated sharedData user node. -/
structure InstagramShared where
  isPrivate : Bool
  isVerified : Bool
  edges : List InstagramPost
deriving DecidableEq, Repr

/-- InstagramMeta is the object returned by the meta-tag evaluation. -/
structure InstagramMeta where
  title : String
  description : String
  image : String
deriving DecidableEq, Repr

/-- InstagramFetch is everything one page fetch yields. -/
structure InstagramFetch where
  meta : InstagramMeta
  descMatch : Option (String × String × String)
  sharedUser : Option InstagramShared
deriving DecidableEq, Repr

/-- InstagramData mirrors the InstagramData interface; the counts are
JSNum because they come from parseCount. -/
structure InstagramData where
  username : String
  fullName : String
  bio : String
  followers : JSNum
  following : JSNum
  postsCount : JSNum
  profilePicUrl : String
  isVerified : Bool
  recentPosts : List InstagramPost
  engagementRate : JSNum
  isPrivate : Bool
deriving DecidableEq, Repr

/-- instagramEngagement embeds the raw engagement-rate computation of
scrapeInstagram: total likes plus comments over the recent posts,
divided by the post count and the follower count and scaled to percent,
guarded to zero when there are no posts or no followers. -/
def instagramEngagement (recentPosts : List InstagramPost) (followers : JSNum) : JSNum :=
  let totalEngagement : ℚ := (recentPosts.map (fun p => p.likes + p.comments)).sum
  if recentPosts.length > 0 && jsGtZero followers then
    jsMul (jsDiv (jsDiv (some totalEngagement) (some (recentPosts.length : ℚ))) followers)
      (some 100)
  else some 0

/-- roundTwoDecimals models Math.round(x * 100) / 100. -/
def roundTwoDecimals (x : JSNum) : JSNum :=
  jsDiv (jsRoundN (jsMul x (some 100))) (some 100)

/-- instagramFallback is the record the catch of scrapeInstagram
returns: minimal data built from the username alone. -/
def instagramFallback (username : String) : InstagramData :=
  { username := username, fullName := username, bio := "",
    followers := some 0, following := some 0, postsCount := some 0,
    profilePicUrl := "", isVerified := false, recentPosts := [],
    engagementRate := some 0, isPrivate := false }

/-- scrapeInstagram embeds scrapeInstagram of instagram.ts as a function
of the handle and the fetch outcome. -/
def scrapeInstagram (handle : String) (fetch : Except String InstagramFetch) :
    InstagramData :=
  let username := normalizeHandle handle
  match fetch with
  | .error _ => instagramFallback username
  | .ok f =>
    let followers := match f.descMatch with
      | some m => parseCount m.1
      | none => some 0
    let following := match f.descMatch with
      | some m => parseCount m.2.1
      | none => some 0
    let postsCount := match f.descMatch with
      | some m => parseCount m.2.2
      | none => some 0
    let bio := extractBioFromDescription f.meta.description
    let fullName := cleanInstagramTitle f.meta.title
    let isPrivate := match f.sharedUser with
      | some u => u.isPrivate
      | none => false
    let isVerified := match f.sharedUser with
      | some u => u.isVerified
      | none => false
    let recentPosts := match f.sharedUser with
      | some u => u.edges.take 12
      | none => []
    let engagementRate := instagramEngagement recentPosts followers
    { username := username, fullName := fullName, bio := bio,
      followers := followers, following := following, postsCount := postsCount,
      profilePicUrl := f.meta.image, isVerified := isVerified,
      recentPosts := recentPosts,
      engagementRate := roundTwoDecimals engagementRate,
      isPrivate := isPrivate }

/-
TikTok scraper, from src/scraper/tiktok.ts. The universal-data JSON
(or its SIGI fallback) is modelled, after the DEFAULT_SCOPE and
webapp.user-detail navigation, as an optional TikTokUserDetail; the json
counters keep their or-zero defaults as optional fields. The meta-tag
fallback carries the evaluated tags and the capture groups of the
followers/likes/videos regex.
-/

/-- TikTokVideo mirrors the TikTokVideo interface. -/
structure TikTokVideo where
  id : String
  description : String
  likes : ℚ
  comments : ℚ
  shares : ℚ
  views : ℚ
  thumbnailUrl : String
  createTime : String
deriving DecidableEq, Repr

/-- TikTokUserStats is the userInfo.stats JSON node; absent counters are
none and fall to zero through the or-zero defaults. -/
structure TikTokUserStats where
  followerCount : Option ℚ
  followingCount : Option ℚ
  heartCount : Option ℚ
  heart : Option ℚ
  videoCount : Option ℚ
deriving DecidableEq, Repr

/-- TikTokUser is the userInfo.user JSON node. -/
structure TikTokUser where
  uniqueId : Option String
  nickname : Option String
  signature : Option String
  avatarLarger : Option String
  avatarMedium : Option String
  verified : Option Bool
deriving DecidableEq, Repr

/-- TikTokUserDetail is the navigated webapp.user-detail node; itemList
arrives already field-mapped as TikTokVideo values, the slice to 12 is
applied where the source applies it. -/
structure TikTokUserDetail where
  user : Option TikTokUser
  stats : TikTokUserStats
  itemList : List TikTokVideo
deriving DecidableEq, Repr

/-- TikTokMeta is the object returned by the meta-tag evaluation. -/
structure TikTokMeta where
  title : String
  description : String
  image : String
deriving DecidableEq, Repr

/-- TikTokPage is everything one page fetch yields. -/
structure TikTokPage where
  universal : Option TikTokUserDetail
  meta : TikTokMeta
  descMatch : Option (String × String × String)
deriving DecidableEq, Repr

/-- TikTokData mirrors the TikTokData interface; counts are JSNum since
the meta fallback path derives them from parseCount. -/
structure TikTokData where
  username : String
  nickname : String
  bio : String
  followers : JSNum
  following : JSNum
  likes : JSNum
  videoCount : JSNum
  profilePicUrl : String
  isVerified : Bool
  recentVideos : List TikTokVideo
deriving DecidableEq, Repr

/-- matchAtWord recognises a suffix starting with an at-sign followed by
a word character, the pattern of the first nickname replace of the
TikTok meta fallback. -/
def matchAtWord (l : List Char) : Bool :=
  match l with
  | '@' :: d :: _ =>
    (97 ≤ d.toNat && d.toNat ≤ 122) || (65 ≤ d.toNat && d.toNat ≤ 90) ||
      (48 ≤ d.toNat && d.toNat ≤ 57) || d = '_'
  | _ => false

/-- matchPipe recognises a suffix starting with a pipe, the pattern of
the second nickname replace of the TikTok meta fallback. -/
def matchPipe (l : List Char) : Bool :=
  match l with
  | '|' :: _ => true
  | _ => false

/-- cleanTikTokTitle embeds the nickname computation of the TikTok meta
fallback: drop from an at-handle, drop from a pipe, trim. -/
def cleanTikTokTitle (title : String) : String :=
  String.mk (trimWs (truncAtMatch matchPipe (truncAtMatch matchAtWord title.data)))

/-- tiktokFallback is the record the catch of scrapeTikTok returns. -/
def tiktokFallback (username : String) : TikTokData :=
  { username := username, nickname := username, bio := "",
    followers := some 0, following := some 0, likes := some 0,
    videoCount := some 0, profilePicUrl := "", isVerified := false,
    recentVideos := [] }

/-- scrapeTikTokMetaFallback embeds the meta-tag fallback tail of
scrapeTikTok: nickname from the cleaned title or the username, counters
from parseCount over the description regex captures. -/
def scrapeTikTokMetaFallback (username : String) (meta : TikTokMeta)
    (descMatch : Option (String × String × String)) : TikTokData :=
  { username := username,
    nickname := jsOrStrV (cleanTikTokTitle meta.title) username,
    bio := "",
    followers := match descMatch with
      | some m => parseCount m.1
      | none => some 0,
    following := some 0,
    likes := match descMatch with
      | some m => parseCount m.2.1
      | none => some 0,
    videoCount := match descMatch with
      | some m => parseCount m.2.2
      | none => some 0,
    profilePicUrl := meta.image,
    isVerified := false,
    recentVideos := [] }

/-- scrapeTikTok embeds scrapeTikTok of tiktok.ts as a function of the
handle and the fetch outcome: the universal-data path when the navigated
user node exists, else the meta-tag fallback, and the zeroed fallback
when the fetch rejects. -/
def scrapeTikTok (handle : String) (fetch : Except String TikTokPage) : TikTokData :=
  let username := normalizeHandle handle
  match fetch with
  | .error _ => tiktokFallback username
  | .ok page =>
    match page.universal with
    | some det =>
      match det.user with
      | some user =>
        { username := jsOrStr user.uniqueId username,
          nickname := jsOrStr user.nickname username,
          bio := jsOrStr user.signature "",
          followers := some ((det.stats.followerCount).getD 0),
          following := some ((det.stats.followingCount).getD 0),
          likes := some ((match det.stats.heartCount with
            | some h => if h = 0 then (det.stats.heart).getD 0 else h
            | none => (det.stats.heart).getD 0)),
          videoCount := some ((det.stats.videoCount).getD 0),
          profilePicUrl := jsOrStr user.avatarLarger (jsOrStr user.avatarMedium ""),
          isVerified := (user.verified).getD false,
          recentVideos := det.itemList.take 12 }
      | none => scrapeTikTokMetaFallback username page.meta page.descMatch
    | none => scrapeTikTokMetaFallback username page.meta page.descMatch

/-
YouTube scraper, from the YouTube Scraper module (scrapeYouTube). The
three API round-trips are modelled as a YouTubeFetch: the resolved
channel id (findChannelId returns null when every lookup fails), the
first item of the channels response, and the already-mapped recent
videos list. The statistics arrive as the JSON strings the Data API
returns; parseInt with the or-zero-string default is embedded.
-/

/-- YouTubeVideo mirrors the YouTubeVideo interface. -/
structure YouTubeVideo where
  id : String
  title : String
  description : String
  thumbnailUrl : String
  publishedAt : String
  viewCount : JSNum
  likeCount : JSNum
  commentCount : JSNum
deriving DecidableEq, Repr

/-- YouTubeStats is the channel statistics JSON node (string counters,
possibly absent). -/
structure YouTubeStats where
  subscriberCount : Option String
  videoCount : Option String
  viewCount : Option String
deriving DecidableEq, Repr

/-- YouTubeSnippet is the channel snippet JSON node. -/
structure YouTubeSnippet where
  title : Option String
  description : Option String
  thumbnailHigh : Option String
  thumbnailDefault : Option String
  customUrl : Option String
  country : Option String
  publishedAt : Option String
deriving DecidableEq, Repr

/-- YouTubeChannel is the first item of the channels response. -/
structure YouTubeChannel where
  snippet : YouTubeSnippet
  stats : YouTubeStats
deriving DecidableEq, Repr

/-- YouTubeFetch is everything the API round-trips yield. -/
structure YouTubeFetch where
  channelId : Option String
  channel : Option YouTubeChannel
  recentVideos : List YouTubeVideo
deriving DecidableEq, Repr

/-- YouTubeData mirrors the YouTubeData interface. -/
structure YouTubeData where
  channelId : String
  channelName : String
  description : String
  subscribers : JSNum
  videoCount : JSNum
  viewCount : JSNum
  thumbnailUrl : String
  customUrl : String
  country : String
  publishedAt : String
  recentVideos : List YouTubeVideo
deriving DecidableEq, Repr

/-- emptyYouTubeData embeds the helper of the same name. -/
def emptyYouTubeData (handle : String) : YouTubeData :=
  { channelId := "", channelName := handle, description := "",
    subscribers := some 0, videoCount := some 0, viewCount := some 0,
    thumbnailUrl := "", customUrl := "", country := "", publishedAt := "",
    recentVideos := [] }

/-- scrapeYouTube embeds scrapeYouTube as a function of the handle, the
presence of an API key, and the fetch outcome: every failure path
(missing key, unresolved channel, missing item, thrown request) returns
the empty data built from the cleaned handle. -/
def scrapeYouTube (handle : String) (hasApiKey : Bool)
    (fetch : Except String YouTubeFetch) : YouTubeData :=
  let cleanHandle := normalizeHandle handle
  if !hasApiKey then emptyYouTubeData cleanHandle
  else
    match fetch with
    | .error _ => emptyYouTubeData cleanHandle
    | .ok f =>
      match f.channelId with
      | none => emptyYouTubeData cleanHandle
      | some cid =>
        match f.channel with
        | none => emptyYouTubeData cleanHandle
        | some ch =>
          { channelId := cid,
            channelName := jsOrStr ch.snippet.title cleanHandle,
            description := jsOrStr ch.snippet.description "",
            subscribers := jsParseInt (jsOrStr ch.stats.subscriberCount "0"),
            videoCount := jsParseInt (jsOrStr ch.stats.videoCount "0"),
            viewCount := jsParseInt (jsOrStr ch.stats.viewCount "0"),
            thumbnailUrl := jsOrStr ch.snippet.thumbnailHigh
              (jsOrStr ch.snippet.thumbnailDefault ""),
            customUrl := jsOrStr ch.snippet.customUrl "",
            country := jsOrStr ch.snippet.country "",
            publishedAt := jsOrStr ch.snippet.publishedAt "",
            recentVideos := f.recentVideos }

/-
Website scraper, from the Website Scraper module (scrapeWebsite). The
in-page evaluation (link harvesting, feature detection, tech-stack
sniffing, contact extraction) is modelled as the WebsiteEval structure
mirroring the object the evaluate callback returns.
-/

/-- SocialLinks mirrors the SocialLinks interface. -/
structure SocialLinks where
  instagram : String
  facebook : String
  tiktok : String
  youtube : String
  twitter : String
  yelp : String
deriving DecidableEq, Repr

/-- WebsiteFeatures mirrors the WebsiteFeatures interface. -/
structure WebsiteFeatures where
  hasOnlineOrdering : Bool
  hasReservation : Bool
  hasMenu : Bool
  hasDelivery : Bool
  hasCatering : Bool
  hasGiftCards : Bool
  hasLoyaltyProgram : Bool
deriving DecidableEq, Repr

/-- ContactInfo mirrors the ContactInfo interface. -/
structure ContactInfo where
  email : String
  phone : String
  address : String
deriving DecidableEq, Repr

/-- WebsiteEval is the object the page evaluation returns. -/
structure WebsiteEval where
  title : String
  description : String
  ogImage : String
  socialLinks : SocialLinks
  features : WebsiteFeatures
  techStack : List String
  navItems : List String
  contactInfo : ContactInfo
deriving DecidableEq, Repr

/-- WebsiteData mirrors the WebsiteData interface. -/
structure WebsiteData where
  url : String
  title : String
  description : String
  ogImage : String
  socialLinks : SocialLinks
  features : WebsiteFeatures
  techStack : List String
  navItems : List String
  contactInfo : ContactInfo
deriving DecidableEq, Repr

/-- normalizeWebsiteUrl embeds the URL normalization at the top of
scrapeWebsite: trim, and prepend the https scheme when the input does
not start with http. -/
def normalizeWebsiteUrl (websiteUrl : String) : String :=
  let url := String.mk (trimWs websiteUrl.data)
  if "http".data.isPrefixOf url.data then url else "https://" ++ url

/-- emptySocialLinks is the all-empty SocialLinks of the catch block. -/
def emptySocialLinks : SocialLinks :=
  { instagram := "", facebook := "", tiktok := "", youtube := "",
    twitter := "", yelp := "" }

/-- emptyWebsiteFeatures is the all-false WebsiteFeatures of the catch
block. -/
def emptyWebsiteFeatures : WebsiteFeatures :=
  { hasOnlineOrdering := false, hasReservation := false, hasMenu := false,
    hasDelivery := false, hasCatering := false, hasGiftCards := false,
    hasLoyaltyProgram := false }

/-- websiteFallback is the record the catch of scrapeWebsite returns:
note it keeps the normalized input URL. -/
def websiteFallback (url : String) : WebsiteData :=
  { url := url, title := "", description := "", ogImage := "",
    socialLinks := emptySocialLinks, features := emptyWebsiteFeatures,
    techStack := [], navItems := [],
    contactInfo := { email := "", phone := "", address := "" } }

/-- scrapeWebsite embeds scrapeWebsite as a function of the input URL
and the fetch outcome; the success path spreads the evaluated data under
the normalized URL. -/
def scrapeWebsite (websiteUrl : String) (fetch : Except String WebsiteEval) :
    WebsiteData :=
  let url := normalizeWebsiteUrl websiteUrl
  match fetch with
  | .error _ => websiteFallback url
  | .ok d =>
    { url := url, title := d.title, description := d.description,
      ogImage := d.ogImage, socialLinks := d.socialLinks,
      features := d.features, techStack := d.techStack,
      navItems := d.navItems, contactInfo := d.contactInfo }

/-
Restaurant (listing) scraper, from src/scraper/index.ts. The four
network steps are modelled as outcome arguments: the Google Maps scrape
(scrapeGoogleMaps), the reviews scrape (scrapeReviews with limit 8), the
photo analysis (analyzeAndRankPhotos over the maps photos, cap 8) and
the photo download (downloadAndProcessPhotos, cap 6). A failing maps
step is rethrown as the failed-to-find error; the other three steps are
individually best-effort.
-/

/-- Coordinates is the lat/lng pair of GoogleMapsData. -/
structure Coordinates where
  lat : ℚ
  lng : ℚ
deriving DecidableEq, Repr

/-- GoogleMapsData mirrors the GoogleMapsData interface of
google-maps.ts. -/
structure GoogleMapsData where
  name : String
  address : String
  phone : String
  website : Option String
  rating : ℚ
  reviewCount : ℚ
  category : String
  hours : List String
  photos : List String
  placeId : String
  coordinates : Coordinates
deriving DecidableEq, Repr

/-- Review mirrors the Review interface of google-reviews.ts. -/
structure Review where
  author : String
  rating : ℚ
  text : String
  date : String
deriving DecidableEq, Repr

/-- ProcessedPhoto mirrors the ProcessedPhoto interface of
photo-downloader.ts. -/
structure ProcessedPhoto where
  id : String
  originalUrl : String
  localPath : String
  publicUrl : String
  width : ℚ
  height : ℚ
  format : String
  url : String
  alt : String
deriving DecidableEq, Repr

/-- RestaurantData mirrors the RestaurantData interface of
src/scraper/index.ts; scrapedAt (a Date) is the clock reading passed in
as a natural number of milliseconds. -/
structure RestaurantData where
  name : String
  slug : String
  address : String
  phone : String
  website : Option String
  category : String
  hours : List String
  rating : ℚ
  reviewCount : ℚ
  photos : List ProcessedPhoto
  reviews : List Review
  placeId : String
  coordinates : Coordinates
  scrapedAt : ℕ
deriving DecidableEq, Repr

/-- photoAltText is the alt the ranked metadata pass assigns to the
downloaded photo at a given index: the hero description for index 0,
the matching gallery description after, with the positional label when
the analysis slot is missing or its description empty (falsy). -/
def photoAltText (rk : RankedPhotos) (index : ℕ) : String :=
  let analysis : Option PhotoAnalysis :=
    if index = 0 then rk.hero else rk.gallery.get? (index - 1)
  match analysis with
  | some a => jsOrStrV a.description ("Photo " ++ toString (index + 1))
  | none => "Photo " ++ toString (index + 1)

/-- applyPhotoAnalysis is the photos.map over the downloaded photos that
rewrites each alt from the ranked analysis. -/
def applyPhotoAnalysis (photos : List ProcessedPhoto) (rk : RankedPhotos) :
    List ProcessedPhoto :=
  (photos.enum).map (fun p => { p.2 with alt := photoAltText rk p.1 })

/-- scrapeRestaurant embeds scrapeRestaurant of src/scraper/index.ts.
The maps failure is rethrown (an Except.error); reviews fall back to an
empty list; photo analysis falls back to no ranking; photo download
falls back to no photos; analysis and download only run when the maps
data has photos. -/
def scrapeRestaurant (name city : String)
    (mapsOutcome : Except String GoogleMapsData)
    (reviewsOutcome : Except String (List Review))
    (rankedOutcome : Except String RankedPhotos)
    (downloadOutcome : Except String (List ProcessedPhoto))
    (now : ℕ) : Except String RestaurantData :=
  match mapsOutcome with
  | .error _ => .error ("Failed to find restaurant: " ++ name ++ ", " ++ city)
  | .ok mapsData =>
    let reviews : List Review :=
      match reviewsOutcome with
      | .ok rs => rs
      | .error _ => []
    let rankedPhotos : Option RankedPhotos :=
      if mapsData.photos.isEmpty then none
      else
        match rankedOutcome with
        | .ok rk => some rk
        | .error _ => none
    let photos : List ProcessedPhoto :=
      if mapsData.photos.isEmpty then []
      else
        match downloadOutcome with
        | .error _ => []
        | .ok dl =>
          match rankedPhotos with
          | some rk => applyPhotoAnalysis dl rk
          | none => dl
    .ok { name := mapsData.name, slug := generateSlug mapsData.name,
          address := mapsData.address, phone := mapsData.phone,
          website := mapsData.website, category := mapsData.category,
          hours := mapsData.hours, rating := mapsData.rating,
          reviewCount := mapsData.reviewCount, photos := photos,
          reviews := reviews, placeId := mapsData.placeId,
          coordinates := mapsData.coordinates, scrapedAt := now }

/-
Social aggregator, from src/scraper/social-aggregator.ts. A promise is
built only for a platform whose handle is truthy; each promise carries a
catch that turns a rejection into a null data record, so after
Promise.allSettled a platform record is present exactly when the handle
was truthy and the underlying scrape resolved. SettledScrapes carries,
per platform, the resolved record or none for a rejected scrape; the
per-platform locals of the merge step are modelled as the eff- helpers.
-/

/-- ScrapeRequest mirrors the ScrapeRequest interface (every field
optional). -/
structure ScrapeRequest where
  gmapsQuery : Option String
  gmapsCity : Option String
  instagram : Option String
  tiktok : Option String
  youtube : Option String
  website : Option String
deriving DecidableEq, Repr

/-- isRequested is the truthiness test on an optional handle: present
and not the empty string. -/
def isRequested (o : Option String) : Bool :=
  match o with
  | some s => s ≠ ""
  | none => false

/-- SettledScrapes carries, per platform, what the settled promise
delivered: the scraped record, or none when the scrape rejected and the
catch substituted null. -/
structure SettledScrapes where
  googleMaps : Option RestaurantData
  instagram : Option InstagramData
  tiktok : Option TikTokData
  youtube : Option YouTubeData
  website : Option WebsiteData
deriving DecidableEq, Repr

/-- SocialAggregateResult mirrors the SocialAggregateResult interface. -/
structure SocialAggregateResult where
  googleMaps : Option RestaurantData
  instagram : Option InstagramData
  tiktok : Option TikTokData
  youtube : Option YouTubeData
  website : Option WebsiteData
  totalFollowers : JSNum
  activePlatforms : List String
  totalContentPieces : JSNum
  avgEngagementRate : JSNum
deriving DecidableEq, Repr

/-- effGoogleMaps is the googleMaps local after the extraction loop:
present when the platform was requested and its promise resolved with
data. -/
def effGoogleMaps (req : ScrapeRequest) (settled : SettledScrapes) :
    Option RestaurantData :=
  if isRequested req.gmapsQuery then settled.googleMaps else none

/-- effInstagram is the instagram local after the extraction loop. -/
def effInstagram (req : ScrapeRequest) (settled : SettledScrapes) :
    Option InstagramData :=
  if isRequested req.instagram then settled.instagram else none

/-- effTikTok is the tiktok local after the extraction loop. -/
def effTikTok (req : ScrapeRequest) (settled : SettledScrapes) :
    Option TikTokData :=
  if isRequested req.tiktok then settled.tiktok else none

/-- effYouTube is the youtube local after the extraction loop. -/
def effYouTube (req : ScrapeRequest) (settled : SettledScrapes) :
    Option YouTubeData :=
  if isRequested req.youtube then settled.youtube else none

/-- effWebsite is the website local after the extraction loop. -/
def effWebsite (req : ScrapeRequest) (settled : SettledScrapes) :
    Option WebsiteData :=
  if isRequested req.website then settled.website else none

/-- instaIsActive is the condition of the instagram stats block:
record present with strictly positive followers. -/
def instaIsActive (o : Option InstagramData) : Bool :=
  match o with
  | some d => jsGtZero d.followers
  | none => false

/-- tiktokIsActive is the condition of the tiktok stats block. -/
def tiktokIsActive (o : Option TikTokData) : Bool :=
  match o with
  | some d => jsGtZero d.followers
  | none => false

/-- ytIsActive is the condition of the youtube stats block. -/
def ytIsActive (o : Option YouTubeData) : Bool :=
  match o with
  | some d => jsGtZero d.subscribers
  | none => false

/-- webIsActive is the condition of the website stats block: record
present with a truthy url (no audience metric is consulted). -/
def webIsActive (o : Option WebsiteData) : Bool :=
  match o with
  | some d => d.url ≠ ""
  | none => false

/-- aggregateSocialData embeds aggregateSocialData of
social-aggregator.ts: populate the per-platform fields, then the merge
step accumulating active platforms, follower and content totals, and
the average engagement rate over the rates pushed (only instagram
pushes one, when positive), rounded to two decimals. -/
def aggregateSocialData (req : ScrapeRequest) (settled : SettledScrapes) :
    SocialAggregateResult :=
  let googleMaps := effGoogleMaps req settled
  let instagram := effInstagram req settled
  let tiktok := effTikTok req settled
  let youtube := effYouTube req settled
  let website := effWebsite req settled
  let activePlatforms : List String :=
    (if instaIsActive instagram then ["instagram"] else []) ++
    (if tiktokIsActive tiktok then ["tiktok"] else []) ++
    (if ytIsActive youtube then ["youtube"] else []) ++
    (if webIsActive website then ["website"] else []) ++
    (if googleMaps.isSome then ["google_maps"] else [])
  let totalFollowers : JSNum :=
    jsAdd (jsAdd
      (if instaIsActive instagram then (instagram.map (fun d => d.followers)).getD (some 0)
       else some 0)
      (if tiktokIsActive tiktok then (tiktok.map (fun d => d.followers)).getD (some 0)
       else some 0))
      (if ytIsActive youtube then (youtube.map (fun d => d.subscribers)).getD (some 0)
       else some 0)
  let totalContentPieces : JSNum :=
    jsAdd (jsAdd
      (if instaIsActive instagram then (instagram.map (fun d => d.postsCount)).getD (some 0)
       else some 0)
      (if tiktokIsActive tiktok then (tiktok.map (fun d => d.videoCount)).getD (some 0)
       else some 0))
      (if ytIsActive youtube then (youtube.map (fun d => d.videoCount)).getD (some 0)
       else some 0)
  let engagementRates : List ℚ :=
    match instagram with
    | some d =>
      if jsGtZero d.followers && jsGtZero d.engagementRate then
        match d.engagementRate with
        | some r => [r]
        | none => []
      else []
    | none => []
  let avgEngagementRate : JSNum :=
    if engagementRates.length > 0 then
      jsDiv (some engagementRates.sum) (some (engagementRates.length : ℚ))
    else some 0
  { googleMaps := googleMaps, instagram := instagram, tiktok := tiktok,
    youtube := youtube, website := website,
    totalFollowers := totalFollowers,
    activePlatforms := activePlatforms,
    totalContentPieces := totalContentPieces,
    avgEngagementRate := roundTwoDecimals avgEngagementRate }

/-
Theorems for the frozen claims, in claim order.
-/

/-- C8 counterexample: the claim says every non-numeric input yields 0,
but the input of a bare magnitude suffix makes parseFloat of the empty
remainder NaN, which the multiply and Math.round propagate: parseCount
of the one-character string k is NaN, not 0. -/
theorem parseCount_nan_counterexample :
    parseCount "k" = none ∧ ¬ parseCount "k" = some 0 := by decide

/-- C8 amended: parseCount round-trips the canonical forms 12.3K, 1,204,
the empty string and abc, never throws (it is total), and a non-numeric
input yields 0 except when it carries a trailing magnitude suffix whose
remainder parseFloat rejects, in which case the result is NaN: NaN
results arise only that way. -/
theorem parseCount_contract :
    parseCount "12.3K" = some 12300 ∧ parseCount "1,204" = some 1204 ∧
    parseCount "" = some 0 ∧ parseCount "abc" = some 0 ∧
    ∀ s : String, parseCount s = none →
      ∃ c, (cleanedCount s).getLast? = some c ∧ isMagnitudeSuffix c = true ∧
        jsParseFloat (String.mk (cleanedCount s).dropLast) = none := by
  refine ⟨by decide, by decide, by decide, by decide, ?_⟩
  intro s hnone
  by_cases hs : s = ""
  · rw [hs] at hnone; exact absurd hnone (by decide)
  · unfold parseCount at hnone
    rw [if_neg hs] at hnone
    cases hlast : (cleanedCount s).getLast? with
    | none => exact absurd (by simp only [hlast] at hnone; exact hnone) (Option.some_ne_none _)
    | some c =>
      simp only [hlast] at hnone
      by_cases hK : (c = 'K' || c = 'k') = true
      · rw [if_pos hK] at hnone
        refine ⟨c, rfl, ?_, ?_⟩
        · simp only [isMagnitudeSuffix]
          rcases Bool.or_eq_true_iff.mp hK with h | h <;> simp [h]
        · exact Option.map_eq_none'.mp hnone
      · rw [if_neg hK] at hnone
        by_cases hM : (c = 'M' || c = 'm') = true
        · rw [if_pos hM] at hnone
          refine ⟨c, rfl, ?_, ?_⟩
          · simp only [isMagnitudeSuffix]
            rcases Bool.or_eq_true_iff.mp hM with h | h <;> simp [h]
          · exact Option.map_eq_none'.mp hnone
        · rw [if_neg hM] at hnone
          exact absurd hnone (by simp)

/-- C8 witness: the general clause of parseCount_contract applied to the
concrete NaN input k. -/
theorem parseCount_contract_witness :
    ∃ c, (cleanedCount "k").getLast? = some c ∧ isMagnitudeSuffix c = true ∧
      jsParseFloat (String.mk (cleanedCount "k").dropLast) = none :=
  parseCount_contract.2.2.2.2 "k" (by decide)

/-- subjectMultiplier is the per-subject factor the spec describes:
food 1.3, ambiance 1.1, all other subjects 1. -/
def subjectMultiplier (t : PhotoType) : ℚ :=
  match t with
  | PhotoType.FOOD => 1.3
  | PhotoType.AMBIANCE => 1.1
  | _ => 1

/-- recommendationMultiplier is the per-tier factor the spec describes:
hero 1.2, skip 0.3, gallery 1. -/
def recommendationMultiplier (r : PhotoRecommendation) : ℚ :=
  match r with
  | PhotoRecommendation.HERO => 1.2
  | PhotoRecommendation.SKIP => 0.3
  | PhotoRecommendation.GALLERY => 1

/-- C4 counterexample: the claim omits the final rounding; a food photo
with quality 9 and appeal 9 recommended hero has claimed combined score
average times 1.3 times 1.2 = 14.04, but the stored ranking score is
rounded to one decimal, 14. -/
theorem photoScore_rounding_counterexample :
    (analyzePhoto "food.jpg" (Except.ok
        { ptype := PhotoType.FOOD, quality := 9, visualAppeal := 9,
          recommendation := PhotoRecommendation.HERO, description := "plat" })).map
      (fun a => a.score) = some 14 ∧
    (9 + 9 : ℚ) / 2 * 1.3 * 1.2 = 14.04 ∧ ¬ (14.04 : ℚ) = 14 := by decide

/-- C4 amended: for every analyzed photo the stored combined score is
the average of quality and visual appeal, times the subject multiplier
(food 1.3, ambiance 1.1, else 1), times the recommendation multiplier
(hero 1.2, skip 0.3, else 1), and then rounded to one decimal place via
Math.round(score * 10) / 10. -/
theorem photoScore_formula (url : String) (p : ParsedAnalysis) :
    (analyzePhoto url (Except.ok p)).map (fun a => a.score) =
      some (jsRound ((p.quality + p.visualAppeal) / 2 * subjectMultiplier p.ptype *
        recommendationMultiplier p.recommendation * 10) / 10) := by
  cases hp : p.ptype <;> cases hr : p.recommendation <;>
    simp only [analyzePhoto, computeScore, subjectMultiplier, recommendationMultiplier,
      hp, hr, Option.map_some, Option.some.injEq, reduceCtorEq, if_true, if_false,
      eq_self_iff_true, if_neg, if_pos] <;>
    norm_num

/-- C3 counterexample: the claim says every extractor, the listing one
included, never throws; but when the Google Maps step fails,
scrapeRestaurant rethrows a failed-to-find error instead of returning a
zeroed record, so the listing extraction at an unreachable handle is an
exception, not a record. -/
theorem listing_extractor_throws_counterexample :
    scrapeRestaurant "zzz-nonexistent-zzz" "zzz" (Except.error "timeout")
      (Except.error "skipped") (Except.error "skipped") (Except.error "skipped") 0 =
    Except.error "Failed to find restaurant: zzz-nonexistent-zzz, zzz" := by rfl

/-- C3 amended: the Instagram, TikTok, YouTube and website extractors
never throw: on a rejected fetch each returns its fully-populated
fallback record, with every numeric field zero, every collection empty,
and the identity text fields defaulted from the input handle (not all
empty); the listing extractor instead rethrows when its primary maps
fetch fails, and that exception is caught at the aggregator boundary. -/
theorem extractor_failure_contract :
    (∀ handle err, scrapeInstagram handle (Except.error err) =
        instagramFallback (normalizeHandle handle)) ∧
    (∀ u, (instagramFallback u).followers = some 0 ∧ (instagramFallback u).following = some 0 ∧
      (instagramFallback u).postsCount = some 0 ∧ (instagramFallback u).engagementRate = some 0 ∧
      (instagramFallback u).recentPosts = [] ∧ (instagramFallback u).bio = "" ∧
      (instagramFallback u).profilePicUrl = "" ∧ (instagramFallback u).username = u ∧
      (instagramFallback u).fullName = u) ∧
    (∀ handle err, scrapeTikTok handle (Except.error err) =
        tiktokFallback (normalizeHandle handle)) ∧
    (∀ u, (tiktokFallback u).followers = some 0 ∧ (tiktokFallback u).following = some 0 ∧
      (tiktokFallback u).likes = some 0 ∧ (tiktokFallback u).videoCount = some 0 ∧
      (tiktokFallback u).recentVideos = [] ∧ (tiktokFallback u).bio = "" ∧
      (tiktokFallback u).username = u ∧ (tiktokFallback u).nickname = u) ∧
    (∀ handle key err, scrapeYouTube handle key (Except.error err) =
        emptyYouTubeData (normalizeHandle handle)) ∧
    (∀ u, (emptyYouTubeData u).subscribers = some 0 ∧ (emptyYouTubeData u).videoCount = some 0 ∧
      (emptyYouTubeData u).viewCount = some 0 ∧ (emptyYouTubeData u).recentVideos = [] ∧
      (emptyYouTubeData u).channelId = "" ∧ (emptyYouTubeData u).channelName = u) ∧
    (∀ url err, scrapeWebsite url (Except.error err) =
        websiteFallback (normalizeWebsiteUrl url)) ∧
    (∀ u, (websiteFallback u).title = "" ∧ (websiteFallback u).description = "" ∧
      (websiteFallback u).techStack = [] ∧ (websiteFallback u).navItems = [] ∧
      (websiteFallback u).url = u) ∧
    (∀ name city err rev rk dl now,
      scrapeRestaurant name city (Except.error err) rev rk dl now =
        Except.error ("Failed to find restaurant: " ++ name ++ ", " ++ city)) := by
  refine ⟨fun handle err => rfl, fun u => ⟨rfl, rfl, rfl, rfl, rfl, rfl, rfl, rfl, rfl⟩,
    fun handle err => rfl, fun u => ⟨rfl, rfl, rfl, rfl, rfl, rfl, rfl, rfl⟩,
    fun handle key err => ?_, fun u => ⟨rfl, rfl, rfl, rfl, rfl, rfl⟩,
    fun url err => rfl, fun u => ⟨rfl, rfl, rfl, rfl, rfl⟩,
    fun name city err rev rk dl now => rfl⟩
  cases key <;> rfl

/-- C1 counterexample: with instagram requested and the Instagram scrape
failing in the way its extractor fails (it resolves with its zero
fallback record rather than rejecting), the aggregate does hold totals
at zero and no active platforms, but the instagram field is that record,
not null as the claim states for the total-failure case. -/
theorem aggregate_nullfield_counterexample :
    (let r := aggregateSocialData
      { gmapsQuery := none, gmapsCity := none, instagram := some "zzz-nonexistent-zzz",
        tiktok := none, youtube := none, website := none }
      { googleMaps := none,
        instagram := some (scrapeInstagram "zzz-nonexistent-zzz"
          (Except.error "Profile not found")),
        tiktok := none, youtube := none, website := none };
    ¬ r.instagram = none ∧ r.activePlatforms = [] ∧ r.totalFollowers = some 0) := by
  decide

/-- C1 amended: aggregateSocialData is total (never throws) and when
every requested extraction settles as a rejection (the catch recorded
null for each), every per-source field is null, activePlatforms is
empty, and totalFollowers, totalContentPieces and avgEngagementRate are
all 0; when an extractor instead fails by resolving with its zeroed
fallback record, its field holds that record rather than null. -/
theorem aggregate_total_rejection (req : ScrapeRequest) :
    aggregateSocialData req
      { googleMaps := none, instagram := none, tiktok := none,
        youtube := none, website := none } =
    { googleMaps := none, instagram := none, tiktok := none, youtube := none,
      website := none, totalFollowers := some 0, activePlatforms := [],
      totalContentPieces := some 0, avgEngagementRate := some 0 } := by
  simp only [aggregateSocialData, effGoogleMaps, effInstagram, effTikTok, effYouTube,
    effWebsite, ite_self]
  rfl

/-- C2 counterexample: the website platform is marked active on a truthy
url alone, with no audience metric consulted: when the website scrape
fails it still resolves with a record keeping the normalized input URL,
so the aggregate lists website as active although no requested source
reported any positive audience metric, where the claim requires the
active list to be empty. -/
theorem activePlatforms_website_counterexample :
    (let r := aggregateSocialData
      { gmapsQuery := none, gmapsCity := none, instagram := none, tiktok := none,
        youtube := none, website := some "cafe-test.com" }
      { googleMaps := none, instagram := none, tiktok := none, youtube := none,
        website := some (scrapeWebsite "cafe-test.com" (Except.error "timeout")) };
    r.activePlatforms = ["website"] ∧ r.totalFollowers = some 0) := by
  decide

/-- A membership test on a conditional singleton list. -/
theorem mem_cond_singleton (b : Bool) (x p : String) :
    p ∈ (if b = true then [x] else []) ↔ b = true ∧ p = x := by
  cases b <;> simp

/-- C2 amended: activePlatforms contains exactly the requested
metric-bearing sources (instagram, tiktok, youtube) whose follower or
subscriber count is strictly positive - an all-zero record is not
active - plus the two metric-free platforms: website whenever its
record has a truthy url and google maps whenever its record is present.
totalFollowers is the sum of the counts of exactly the active
metric-bearing sources; in particular, when exactly one of the three is
positive and website/google maps are absent, activePlatforms is that
singleton and totalFollowers is exactly that source count. -/
theorem activePlatforms_metric_exactness (req : ScrapeRequest) (settled : SettledScrapes) :
    (∀ p, p ∈ (aggregateSocialData req settled).activePlatforms ↔
      (p = "instagram" ∧ instaIsActive (effInstagram req settled) = true) ∨
      (p = "tiktok" ∧ tiktokIsActive (effTikTok req settled) = true) ∨
      (p = "youtube" ∧ ytIsActive (effYouTube req settled) = true) ∨
      (p = "website" ∧ webIsActive (effWebsite req settled) = true) ∨
      (p = "google_maps" ∧ (effGoogleMaps req settled).isSome = true)) ∧
    ((aggregateSocialData req settled).totalFollowers =
      jsAdd (jsAdd
        (if "instagram" ∈ (aggregateSocialData req settled).activePlatforms then
          ((effInstagram req settled).map (fun d => d.followers)).getD (some 0)
         else some 0)
        (if "tiktok" ∈ (aggregateSocialData req settled).activePlatforms then
          ((effTikTok req settled).map (fun d => d.followers)).getD (some 0)
         else some 0))
        (if "youtube" ∈ (aggregateSocialData req settled).activePlatforms then
          ((effYouTube req settled).map (fun d => d.subscribers)).getD (some 0)
         else some 0)) ∧
    (∀ d, effInstagram req settled = some d →
      instaIsActive (effInstagram req settled) = true →
      tiktokIsActive (effTikTok req settled) = false →
      ytIsActive (effYouTube req settled) = false →
      webIsActive (effWebsite req settled) = false →
      effGoogleMaps req settled = none →
      (aggregateSocialData req settled).activePlatforms = ["instagram"] ∧
      (aggregateSocialData req settled).totalFollowers = d.followers) ∧
    (∀ d, effTikTok req settled = some d →
      tiktokIsActive (effTikTok req settled) = true →
      instaIsActive (effInstagram req settled) = false →
      ytIsActive (effYouTube req settled) = false →
      webIsActive (effWebsite req settled) = false →
      effGoogleMaps req settled = none →
      (aggregateSocialData req settled).activePlatforms = ["tiktok"] ∧
      (aggregateSocialData req settled).totalFollowers = d.followers) ∧
    (∀ d, effYouTube req settled = some d →
      ytIsActive (effYouTube req settled) = true →
      instaIsActive (effInstagram req settled) = false →
      tiktokIsActive (effTikTok req settled) = false →
      webIsActive (effWebsite req settled) = false →
      effGoogleMaps req settled = none →
      (aggregateSocialData req settled).activePlatforms = ["youtube"] ∧
      (aggregateSocialData req settled).totalFollowers = d.subscribers) := by
  refine ⟨?_, ?_, ?_, ?_, ?_⟩
  · intro p
    simp only [aggregateSocialData, List.mem_append, mem_cond_singleton]
    tauto
  · by_cases hI : instaIsActive (effInstagram req settled) = true <;>
      by_cases hT : tiktokIsActive (effTikTok req settled) = true <;>
      by_cases hY : ytIsActive (effYouTube req settled) = true <;>
      simp [aggregateSocialData, mem_cond_singleton, hI, hT, hY]
  · intro d hd hI hT hY hw hg
    rw [hd] at hI
    cases hf : d.followers with
    | none => simp [instaIsActive, jsGtZero, hf] at hI
    | some x =>
      constructor
      · simp [aggregateSocialData, hw, hg, hd, hI, hT, hY]
      · simp [aggregateSocialData, hw, hg, hd, hI, hT, hY, hf, jsAdd]
  · intro d hd hT hI hY hw hg
    rw [hd] at hT
    cases hf : d.followers with
    | none => simp [tiktokIsActive, jsGtZero, hf] at hT
    | some x =>
      constructor
      · simp [aggregateSocialData, hw, hg, hd, hI, hT, hY]
      · simp [aggregateSocialData, hw, hg, hd, hI, hT, hY, hf, jsAdd]
  · intro d hd hY hI hT hw hg
    rw [hd] at hY
    cases hf : d.subscribers with
    | none => simp [ytIsActive, jsGtZero, hf] at hY
    | some x =>
      constructor
      · simp [aggregateSocialData, hw, hg, hd, hI, hT, hY]
      · simp [aggregateSocialData, hw, hg, hd, hI, hT, hY, hf, jsAdd]

/-- C2 witness: one requested source (instagram, 500 followers) positive
and another (tiktok) returning an all-zero record: the active list is
the instagram singleton and the follower total is exactly 500. -/
theorem activePlatforms_metric_exactness_witness :
    (aggregateSocialData
      { gmapsQuery := none, gmapsCity := none, instagram := some "resto",
        tiktok := some "resto", youtube := none, website := none }
      { googleMaps := none,
        instagram := some { instagramFallback "resto" with followers := some 500 },
        tiktok := some (tiktokFallback "resto"), youtube := none,
        website := none }).activePlatforms = ["instagram"] ∧
    (aggregateSocialData
      { gmapsQuery := none, gmapsCity := none, instagram := some "resto",
        tiktok := some "resto", youtube := none, website := none }
      { googleMaps := none,
        instagram := some { instagramFallback "resto" with followers := some 500 },
        tiktok := some (tiktokFallback "resto"), youtube := none,
        website := none }).totalFollowers =
      ({ instagramFallback "resto" with followers := some 500 } : InstagramData).followers :=
  (activePlatforms_metric_exactness
    { gmapsQuery := none, gmapsCity := none, instagram := some "resto",
      tiktok := some "resto", youtube := none, website := none }
    { googleMaps := none,
      instagram := some { instagramFallback "resto" with followers := some 500 },
      tiktok := some (tiktokFallback "resto"), youtube := none,
      website := none }).2.2.1
    { instagramFallback "resto" with followers := some 500 }
    (by decide) (by decide) (by decide) (by decide) (by decide) (by decide)

/-- roundTwoDecimals on a finite value is finite and explicit. -/
theorem roundTwoDecimals_some (x : ℚ) :
    roundTwoDecimals (some x) = some (jsRound (x * 100) / 100) := by
  simp [roundTwoDecimals, jsMul, jsRoundN, jsDiv]

/-- instagramEngagement never produces a non-finite value: the guard
only divides by the post count and the follower count when both are
positive. -/
theorem instagramEngagement_isSome (posts : List InstagramPost) (followers : JSNum) :
    (instagramEngagement posts followers).isSome = true := by
  unfold instagramEngagement
  by_cases h : (decide (0 < posts.length) && jsGtZero followers) = true
  · rw [if_pos h]
    rcases Bool.and_eq_true_iff.mp h with ⟨hlen, hf⟩
    cases followers with
    | none => exact absurd hf (by simp [jsGtZero])
    | some f =>
      have hf0 : 0 < f := by simpa [jsGtZero] using hf
      have hlen0 : posts.length ≠ 0 := by
        intro h0; rw [h0] at hlen; exact absurd hlen (by decide)
      simp [jsDiv, jsMul, Nat.cast_ne_zero.mpr hlen0, ne_of_gt hf0]
  · rw [if_neg h]; rfl

/-- roundTwoDecimals keeps finiteness. -/
theorem roundTwoDecimalsKeepsSome (x : JSNum) (hx : x.isSome = true) :
    (roundTwoDecimals x).isSome = true := by
  cases x with
  | none => exact absurd hx (by simp)
  | some q => rw [roundTwoDecimals_some]; rfl

/-- C10: the engagement-rate division in scrapeInstagram is guarded:
the rate is 0 when there are no scraped posts or no followers, equals
total likes plus comments over the posts divided by the post count and
the follower count times 100 otherwise (stored rounded to two
decimals), is never NaN or infinite, and the aggregator average over
reported engagement rates is always finite. -/
theorem engagement_rate_guarded :
    (∀ followers, instagramEngagement [] followers = some 0) ∧
    (∀ posts followers, jsGtZero followers = false →
      instagramEngagement posts followers = some 0) ∧
    (∀ (posts : List InstagramPost) (f : ℚ), posts ≠ [] → 0 < f →
      instagramEngagement posts (some f) =
        some ((posts.map (fun p => p.likes + p.comments)).sum / (posts.length : ℚ) / f * 100)) ∧
    (∀ (posts : List InstagramPost) (f : ℚ), posts ≠ [] → 0 < f →
      roundTwoDecimals (instagramEngagement posts (some f)) =
        some (jsRound
          ((posts.map (fun p => p.likes + p.comments)).sum / (posts.length : ℚ) / f * 100 * 100)
          / 100)) ∧
    (∀ handle fetch, ((scrapeInstagram handle fetch).engagementRate).isSome = true) ∧
    (∀ req settled, ((aggregateSocialData req settled).avgEngagementRate).isSome = true) := by
  have formula : ∀ (posts : List InstagramPost) (f : ℚ), posts ≠ [] → 0 < f →
      instagramEngagement posts (some f) =
        some ((posts.map (fun p => p.likes + p.comments)).sum / (posts.length : ℚ) / f * 100) := by
    intro posts f hne hf
    have hlen : 0 < posts.length := List.length_pos.mpr hne
    have hcond : (decide (0 < posts.length) && jsGtZero (some f)) = true := by
      simp [jsGtZero, hlen, hf]
    unfold instagramEngagement
    rw [if_pos hcond]
    simp [jsDiv, jsMul, Nat.cast_ne_zero.mpr (Nat.pos_iff_ne_zero.mp hlen), ne_of_gt hf]
  refine ⟨?_, ?_, formula, ?_, ?_, ?_⟩
  · intro followers
    unfold instagramEngagement
    rw [if_neg (by simp)]
  · intro posts followers h
    unfold instagramEngagement
    rw [if_neg (by simp [h])]
  · intro posts f hne hf
    rw [formula posts f hne hf, roundTwoDecimals_some]
  · intro handle fetch
    cases fetch with
    | error e => rfl
    | ok f =>
      simp only [scrapeInstagram]
      cases h : instagramEngagement
          (match f.sharedUser with
            | some u => u.edges.take 12
            | none => [])
          (match f.descMatch with
            | some m => parseCount m.1
            | none => some 0) with
      | none =>
        have := instagramEngagement_isSome
          (match f.sharedUser with
            | some u => u.edges.take 12
            | none => [])
          (match f.descMatch with
            | some m => parseCount m.1
            | none => some 0)
        rw [h] at this; exact absurd this (by simp)
      | some x => rw [roundTwoDecimals_some]; rfl
  · intro req settled
    simp only [aggregateSocialData]
    apply roundTwoDecimalsKeepsSome
    split
    · rename_i hlen
      have hne : ¬ ((match effInstagram req settled with
          | some d =>
            if (jsGtZero d.followers && jsGtZero d.engagementRate) = true then
              match d.engagementRate with
              | some r => [r]
              | none => []
            else []
          | none => []) : List ℚ).length = 0 := Nat.pos_iff_ne_zero.mp hlen
      simp only [jsDiv]
      rw [if_neg (Nat.cast_ne_zero.mpr hne)]
      rfl
    · rfl

/-- C10 witness: the unguarded branch of engagement_rate_guarded at one
post with 40 likes and 10 comments and 100 followers gives rate 50. -/
theorem engagement_rate_guarded_witness :
    instagramEngagement
      [{ imageUrl := "", caption := "", likes := 40, comments := 10, timestamp := "" }]
      (some 100) = some 50 :=
  (engagement_rate_guarded.2.2.1
    [{ imageUrl := "", caption := "", likes := 40, comments := 10, timestamp := "" }]
    100 (by decide) (by decide)).trans (by decide)

/-- The two partitionGo lists together are a permutation of the input:
every processed photo lands in exactly one of gallery and skipped. -/
theorem partitionGo_perm : ∀ (l : List PhotoAnalysis) (g : ℕ),
    List.Perm ((partitionGo l g).1 ++ (partitionGo l g).2) l := by
  intro l
  induction l with
  | nil => intro g; simp [partitionGo]
  | cons p rest ih =>
    intro g
    unfold partitionGo
    by_cases h1 : (p.recommendation = PhotoRecommendation.SKIP || decide (p.score < 4)) = true
    · rw [if_pos h1]
      exact List.perm_middle.trans ((ih g).cons p)
    · rw [if_neg h1]
      by_cases h2 : g < 5
      · rw [if_pos h2]
        exact ((ih (g + 1)).cons p)
      · rw [if_neg h2]
        exact List.perm_middle.trans ((ih g).cons p)

/-- The gallery partitionGo builds never exceeds the cap of 5, counting
the slots already taken. -/
theorem partitionGo_gallery_length : ∀ (l : List PhotoAnalysis) (g : ℕ),
    (partitionGo l g).1.length ≤ 5 - g := by
  intro l
  induction l with
  | nil => intro g; simp [partitionGo]
  | cons p rest ih =>
    intro g
    unfold partitionGo
    by_cases h1 : (p.recommendation = PhotoRecommendation.SKIP || decide (p.score < 4)) = true
    · rw [if_pos h1]; exact ih g
    · rw [if_neg h1]
      by_cases h2 : g < 5
      · rw [if_pos h2]
        have := ih (g + 1)
        simp only [List.length_cons]
        omega
      · rw [if_neg h2]; exact ih g

/-- Every gallery member passed the floor and skip checks. -/
theorem partitionGo_gallery_mem : ∀ (l : List PhotoAnalysis) (g : ℕ),
    ∀ p ∈ (partitionGo l g).1,
      ¬ p.recommendation = PhotoRecommendation.SKIP ∧ 4 ≤ p.score := by
  intro l
  induction l with
  | nil => intro g p hp; simp [partitionGo] at hp
  | cons q rest ih =>
    intro g p hp
    unfold partitionGo at hp
    by_cases h1 : (q.recommendation = PhotoRecommendation.SKIP || decide (q.score < 4)) = true
    · rw [if_pos h1] at hp; exact ih g p hp
    · rw [if_neg h1] at hp
      have hq : ¬ q.recommendation = PhotoRecommendation.SKIP ∧ 4 ≤ q.score := by
        rw [Bool.or_eq_true_iff] at h1
        push_neg at h1
        exact ⟨by simpa using h1.1, by simpa [not_lt] using h1.2⟩
      by_cases h2 : g < 5
      · rw [if_pos h2] at hp
        rcases List.mem_cons.mp hp with h | h
        · exact h ▸ hq
        · exact ih (g + 1) p h
      · rw [if_neg h2] at hp; exact ih g p hp

/-- The gallery is a sublist of the processed list, so it keeps its
order. -/
theorem partitionGo_gallery_sublist : ∀ (l : List PhotoAnalysis) (g : ℕ),
    List.Sublist (partitionGo l g).1 l := by
  intro l
  induction l with
  | nil => intro g; simp [partitionGo]
  | cons p rest ih =>
    intro g
    unfold partitionGo
    by_cases h1 : (p.recommendation = PhotoRecommendation.SKIP || decide (p.score < 4)) = true
    · rw [if_pos h1]; exact (ih g).cons p
    · rw [if_neg h1]
      by_cases h2 : g < 5
      · rw [if_pos h2]; exact (ih (g + 1)).cons₂ p
      · rw [if_neg h2]; exact (ih g).cons p

/-- Consing the element at a valid index onto the list with that index
erased permutes back to the list. -/
theorem cons_eraseIdx_perm {α : Type} : ∀ (l : List α) (i : ℕ) (h : α),
    l.get? i = some h → List.Perm (h :: l.eraseIdx i) l := by
  intro l
  induction l with
  | nil => intro i h hget; simp at hget
  | cons a rest ih =>
    intro i h hget
    cases i with
    | zero =>
      simp only [List.get?] at hget
      cases hget
      simp [List.eraseIdx]
    | succ j =>
      simp only [List.get?] at hget
      have := ih j h hget
      refine List.Perm.trans ?_ (this.cons a)
      exact List.Perm.swap a h (rest.eraseIdx j)

/-- A found index points at an element satisfying the filter. -/
theorem findIdx_get {α : Type} {p : α → Bool} :
    ∀ {l : List α} {i : ℕ}, l.findIdx? p = some i →
      ∃ h, l.get? i = some h ∧ p h = true := by
  intro l
  induction l with
  | nil => intro i h; simp at h
  | cons a rest ih =>
    intro i h
    rw [List.findIdx?_cons] at h
    by_cases hpa : p a = true
    · rw [if_pos hpa] at h
      cases h
      exact ⟨a, rfl, hpa⟩
    · rw [if_neg hpa, List.findIdx?_succ] at h
      cases hr : rest.findIdx? p with
      | none => rw [hr] at h; simp at h
      | some j =>
        rw [hr] at h
        simp at h
        obtain ⟨b, hb, hpb⟩ := ih hr
        exact ⟨b, by rw [← h]; exact hb, hpb⟩

/-- In a list sorted by descending score, the element at the first
position satisfying a filter scores at least as high as every element
satisfying the filter. -/
theorem findIdx_first_max {p : PhotoAnalysis → Bool} :
    ∀ {l : List PhotoAnalysis}, List.Sorted scoreGe l →
      ∀ {i : ℕ} {h : PhotoAnalysis}, l.findIdx? p = some i → l.get? i = some h →
        ∀ q ∈ l, p q = true → q.score ≤ h.score := by
  intro l
  induction l with
  | nil => intro _ i h hidx; simp at hidx
  | cons a rest ih =>
    intro hs i h hidx hget q hq hpq
    rw [List.sorted_cons] at hs
    rw [List.findIdx?_cons] at hidx
    by_cases hpa : p a = true
    · rw [if_pos hpa] at hidx
      cases hidx
      simp only [List.get?] at hget
      cases hget
      rcases List.mem_cons.mp hq with rfl | hq2
      · exact le_refl _
      · exact hs.1 q hq2
    · rw [if_neg hpa, List.findIdx?_succ] at hidx
      cases hr : rest.findIdx? p with
      | none => rw [hr] at hidx; simp at hidx
      | some j =>
        rw [hr] at hidx
        simp at hidx
        subst hidx
        simp only [List.get?] at hget
        rcases List.mem_cons.mp hq with rfl | hq2
        · exact absurd hpq hpa
        · exact ih hs.2 hr hget q hq2 hpq

/-- A food pick is in particular not skip-tagged. -/
theorem foodPick_nonSkip {p : PhotoAnalysis} (h : isFoodPick p = true) :
    isNonSkip p = true := by
  simp only [isFoodPick, Bool.and_eq_true] at h
  exact h.2

/-- The sorted results are sorted by descending score. -/
theorem sortedResults_sorted (inputs : List (String × Except String ParsedAnalysis))
    (maxToAnalyze : ℕ) : List.Sorted scoreGe (sortedResults inputs maxToAnalyze) :=
  List.sorted_insertionSort scoreGe (analysisResults inputs maxToAnalyze)

/-- The sorted results are a permutation of the analysis results. -/
theorem sortedResults_perm (inputs : List (String × Except String ParsedAnalysis))
    (maxToAnalyze : ℕ) :
    List.Perm (sortedResults inputs maxToAnalyze) (analysisResults inputs maxToAnalyze) :=
  List.perm_insertionSort scoreGe (analysisResults inputs maxToAnalyze)

/-- The hero field of the ranking is the lookup at the selected index in
the sorted results. -/
theorem analyzeAndRankPhotos_hero (inputs : List (String × Except String ParsedAnalysis))
    (maxToAnalyze : ℕ) :
    (analyzeAndRankPhotos inputs maxToAnalyze).hero =
      (selectHeroIdx (sortedResults inputs maxToAnalyze)).bind
        ((sortedResults inputs maxToAnalyze).get?) := rfl

/-- C5: the hero is the highest-scoring food non-skip candidate; when no
such candidate was analyzed, the highest-scoring non-skip candidate;
when every candidate is skip-tagged, there is no hero. -/
theorem hero_selection (inputs : List (String × Except String ParsedAnalysis))
    (maxToAnalyze : ℕ) :
    (∀ p ∈ analysisResults inputs maxToAnalyze, isFoodPick p = true →
      ∃ h, (analyzeAndRankPhotos inputs maxToAnalyze).hero = some h ∧ isFoodPick h = true ∧
        ∀ q ∈ analysisResults inputs maxToAnalyze, isFoodPick q = true →
          q.score ≤ h.score) ∧
    ((∀ p ∈ analysisResults inputs maxToAnalyze, isFoodPick p = false) →
      ∀ p ∈ analysisResults inputs maxToAnalyze, isNonSkip p = true →
      ∃ h, (analyzeAndRankPhotos inputs maxToAnalyze).hero = some h ∧ isNonSkip h = true ∧
        ∀ q ∈ analysisResults inputs maxToAnalyze, isNonSkip q = true →
          q.score ≤ h.score) ∧
    ((∀ p ∈ analysisResults inputs maxToAnalyze, isNonSkip p = false) →
      (analyzeAndRankPhotos inputs maxToAnalyze).hero = none) := by
  have hs := sortedResults_sorted inputs maxToAnalyze
  have hperm := sortedResults_perm inputs maxToAnalyze
  refine ⟨?_, ?_, ?_⟩
  · intro p hp hfood
    have hpS : p ∈ sortedResults inputs maxToAnalyze := hperm.mem_iff.mpr hp
    have hany : ((sortedResults inputs maxToAnalyze).findIdx? isFoodPick).isSome = true := by
      rw [List.findIdx?_isSome]
      exact List.any_eq_true.mpr ⟨p, hpS, hfood⟩
    cases hidx : (sortedResults inputs maxToAnalyze).findIdx? isFoodPick with
    | none => rw [hidx] at hany; exact absurd hany (by simp)
    | some i =>
      obtain ⟨h, hget, hph⟩ := findIdx_get hidx
      refine ⟨h, ?_, hph, ?_⟩
      · rw [analyzeAndRankPhotos_hero]
        simpa [selectHeroIdx, hidx] using hget
      · intro q hq hfq
        exact findIdx_first_max hs hidx hget q (hperm.mem_iff.mpr hq) hfq
  · intro hnofood p hp hns
    have hpS : p ∈ sortedResults inputs maxToAnalyze := hperm.mem_iff.mpr hp
    have hfoodnone : (sortedResults inputs maxToAnalyze).findIdx? isFoodPick = none := by
      simp only [List.findIdx?_eq_none_iff]
      intro x hx
      exact hnofood x (hperm.mem_iff.mp hx)
    have hany : ((sortedResults inputs maxToAnalyze).findIdx? isNonSkip).isSome = true := by
      rw [List.findIdx?_isSome]
      exact List.any_eq_true.mpr ⟨p, hpS, hns⟩
    cases hidx : (sortedResults inputs maxToAnalyze).findIdx? isNonSkip with
    | none => rw [hidx] at hany; exact absurd hany (by simp)
    | some i =>
      obtain ⟨h, hget, hph⟩ := findIdx_get hidx
      refine ⟨h, ?_, hph, ?_⟩
      · rw [analyzeAndRankPhotos_hero]
        simpa [selectHeroIdx, hfoodnone, hidx] using hget
      · intro q hq hfq
        exact findIdx_first_max hs hidx hget q (hperm.mem_iff.mpr hq) hfq
  · intro hnoskip
    have hnsnone : (sortedResults inputs maxToAnalyze).findIdx? isNonSkip = none := by
      simp only [List.findIdx?_eq_none_iff]
      intro x hx
      exact hnoskip x (hperm.mem_iff.mp hx)
    have hfoodnone : (sortedResults inputs maxToAnalyze).findIdx? isFoodPick = none := by
      simp only [List.findIdx?_eq_none_iff]
      intro x hx
      cases hf : isFoodPick x with
      | false => rfl
      | true =>
        have := foodPick_nonSkip hf
        rw [hnoskip x (hperm.mem_iff.mp hx)] at this
        exact absurd this (by simp)
    rw [analyzeAndRankPhotos_hero]
    simp [selectHeroIdx, hfoodnone, hnsnone]

/-- C5 witness: the spec scenario of one food hero, one ambiance gallery
and one skip candidate, fed to the first branch of hero_selection: the
food photo (stored score 14) is the hero. -/
theorem hero_selection_witness :
    ∃ h, (analyzeAndRankPhotos
      [("a.jpg", Except.ok ⟨PhotoType.FOOD, 9, 9, PhotoRecommendation.HERO, "plat"⟩),
       ("b.jpg", Except.ok ⟨PhotoType.AMBIANCE, 6, 6, PhotoRecommendation.GALLERY, "salle"⟩),
       ("c.jpg", Except.ok ⟨PhotoType.OTHER, 2, 2, PhotoRecommendation.SKIP, "menu"⟩)]
      10).hero = some h ∧ isFoodPick h = true ∧
      ∀ q ∈ analysisResults
        [("a.jpg", Except.ok ⟨PhotoType.FOOD, 9, 9, PhotoRecommendation.HERO, "plat"⟩),
         ("b.jpg", Except.ok ⟨PhotoType.AMBIANCE, 6, 6, PhotoRecommendation.GALLERY, "salle"⟩),
         ("c.jpg", Except.ok ⟨PhotoType.OTHER, 2, 2, PhotoRecommendation.SKIP, "menu"⟩)]
        10, isFoodPick q = true → q.score ≤ h.score :=
  (hero_selection
    [("a.jpg", Except.ok ⟨PhotoType.FOOD, 9, 9, PhotoRecommendation.HERO, "plat"⟩),
     ("b.jpg", Except.ok ⟨PhotoType.AMBIANCE, 6, 6, PhotoRecommendation.GALLERY, "salle"⟩),
     ("c.jpg", Except.ok ⟨PhotoType.OTHER, 2, 2, PhotoRecommendation.SKIP, "menu"⟩)]
    10).1
    ⟨"a.jpg", PhotoType.FOOD, 9, 9, PhotoRecommendation.HERO, "plat", 14⟩
    (by decide) (by decide)

/-- heroRest is the sorted results with the hero occurrence removed,
the list the gallery loop walks. -/
def heroRest (inputs : List (String × Except String ParsedAnalysis))
    (maxToAnalyze : ℕ) : List PhotoAnalysis :=
  match selectHeroIdx (sortedResults inputs maxToAnalyze) with
  | some i => (sortedResults inputs maxToAnalyze).eraseIdx i
  | none => sortedResults inputs maxToAnalyze

/-- The gallery field is the first partitionGo component over
heroRest. -/
theorem analyzeAndRankPhotos_gallery (inputs : List (String × Except String ParsedAnalysis))
    (maxToAnalyze : ℕ) :
    (analyzeAndRankPhotos inputs maxToAnalyze).gallery =
      (partitionGo (heroRest inputs maxToAnalyze) 0).1 := rfl

/-- The skipped field is the second partitionGo component over
heroRest. -/
theorem analyzeAndRankPhotos_skipped (inputs : List (String × Except String ParsedAnalysis))
    (maxToAnalyze : ℕ) :
    (analyzeAndRankPhotos inputs maxToAnalyze).skipped =
      (partitionGo (heroRest inputs maxToAnalyze) 0).2 := rfl

/-- A selected hero index is a valid lookup position. -/
theorem selectHeroIdx_get {S : List PhotoAnalysis} {i : ℕ}
    (h : selectHeroIdx S = some i) : ∃ x, S.get? i = some x := by
  unfold selectHeroIdx at h
  cases hf : S.findIdx? isFoodPick with
  | some j =>
    rw [hf] at h
    cases h
    obtain ⟨x, hx, _⟩ := findIdx_get hf
    exact ⟨x, hx⟩
  | none =>
    rw [hf] at h
    obtain ⟨x, hx, _⟩ := findIdx_get h
    exact ⟨x, hx⟩

/-- heroRest is a sublist of the sorted results. -/
theorem heroRest_sublist (inputs : List (String × Except String ParsedAnalysis))
    (maxToAnalyze : ℕ) :
    List.Sublist (heroRest inputs maxToAnalyze) (sortedResults inputs maxToAnalyze) := by
  unfold heroRest
  cases selectHeroIdx (sortedResults inputs maxToAnalyze) with
  | some i => exact List.eraseIdx_sublist _ i
  | none => exact List.Sublist.refl _

/-- C6: the gallery never exceeds the cap of 5, every gallery member is
non-skip with score at or above the floor 4, the gallery is in
descending score order, and together with the hero and the skipped list
it partitions exactly the successfully analyzed candidates (every other
non-hero candidate is in skipped). -/
theorem gallery_selection (inputs : List (String × Except String ParsedAnalysis))
    (maxToAnalyze : ℕ) :
    (analyzeAndRankPhotos inputs maxToAnalyze).gallery.length ≤ 5 ∧
    (∀ p ∈ (analyzeAndRankPhotos inputs maxToAnalyze).gallery,
      ¬ p.recommendation = PhotoRecommendation.SKIP ∧ 4 ≤ p.score) ∧
    List.Sorted scoreGe (analyzeAndRankPhotos inputs maxToAnalyze).gallery ∧
    List.Perm
      ((analyzeAndRankPhotos inputs maxToAnalyze).hero.toList ++
        ((analyzeAndRankPhotos inputs maxToAnalyze).gallery ++
          (analyzeAndRankPhotos inputs maxToAnalyze).skipped))
      (analysisResults inputs maxToAnalyze) := by
  refine ⟨?_, ?_, ?_, ?_⟩
  · rw [analyzeAndRankPhotos_gallery]
    simpa using partitionGo_gallery_length (heroRest inputs maxToAnalyze) 0
  · rw [analyzeAndRankPhotos_gallery]
    exact partitionGo_gallery_mem (heroRest inputs maxToAnalyze) 0
  · rw [analyzeAndRankPhotos_gallery]
    exact List.Pairwise.sublist
      ((partitionGo_gallery_sublist _ 0).trans (heroRest_sublist inputs maxToAnalyze))
      (sortedResults_sorted inputs maxToAnalyze)
  · rw [analyzeAndRankPhotos_gallery, analyzeAndRankPhotos_skipped,
      analyzeAndRankPhotos_hero]
    refine List.Perm.trans ?_ (sortedResults_perm inputs maxToAnalyze)
    unfold heroRest
    cases hsel : selectHeroIdx (sortedResults inputs maxToAnalyze) with
    | none =>
      simpa using partitionGo_perm (sortedResults inputs maxToAnalyze) 0
    | some i =>
      obtain ⟨x, hx⟩ := selectHeroIdx_get hsel
      have hx2 : (sortedResults inputs maxToAnalyze)[i]? = some x := by
        rw [← List.get?_eq_getElem?]; exact hx
      refine List.Perm.trans ?_
        (cons_eraseIdx_perm (sortedResults inputs maxToAnalyze) i x hx)
      simp only [Option.some_bind, List.get?_eq_getElem?, hx2, Option.toList_some]
      simpa using
        (partitionGo_perm ((sortedResults inputs maxToAnalyze).eraseIdx i) 0).cons x

/-- The length of a filterMap counts the inputs the function keeps. -/
theorem length_filterMap_countP {α β : Type} (f : α → Option β) :
    ∀ l : List α, (l.filterMap f).length = l.countP (fun a => (f a).isSome) := by
  intro l
  induction l with
  | nil => rfl
  | cons a rest ih =>
    cases hf : f a with
    | none => simp [List.filterMap_cons, hf, List.countP_cons, ih]
    | some b => simp [List.filterMap_cons, hf, List.countP_cons, ih]

/-- C7: a candidate whose analysis fails yields no analysis record, the
ranking over a candidate list containing a failing candidate (within the
analysis window) is identical to the ranking without it, and
totalAnalyzed counts exactly the successfully analyzed candidates. -/
theorem failed_analysis_dropped (inputs : List (String × Except String ParsedAnalysis))
    (maxToAnalyze : ℕ) :
    (analyzeAndRankPhotos inputs maxToAnalyze).totalAnalyzed =
      (inputs.take maxToAnalyze).countP (fun q => (analyzePhoto q.1 q.2).isSome) ∧
    (∀ url err, analyzePhoto url (Except.error err) = none) ∧
    (∀ (pre post : List (String × Except String ParsedAnalysis)) (url err : String),
      (pre ++ (url, Except.error err) :: post).length ≤ maxToAnalyze →
      analyzeAndRankPhotos (pre ++ (url, Except.error err) :: post) maxToAnalyze =
        analyzeAndRankPhotos (pre ++ post) maxToAnalyze) := by
  refine ⟨?_, fun url err => rfl, ?_⟩
  · have h1 : (analyzeAndRankPhotos inputs maxToAnalyze).totalAnalyzed =
        (sortedResults inputs maxToAnalyze).length := rfl
    rw [h1, (sortedResults_perm inputs maxToAnalyze).length_eq]
    exact length_filterMap_countP _ _
  · intro pre post url err hlen
    have hlen2 : (pre ++ post).length ≤ maxToAnalyze := by
      simp only [List.length_append, List.length_cons] at hlen ⊢
      omega
    have h1 : analysisResults (pre ++ (url, Except.error err) :: post) maxToAnalyze =
        analysisResults (pre ++ post) maxToAnalyze := by
      unfold analysisResults
      rw [List.take_of_length_le hlen, List.take_of_length_le hlen2]
      simp [List.filterMap_append, List.filterMap_cons, analyzePhoto]
    unfold analyzeAndRankPhotos sortedResults
    rw [h1]

/-- C7 witness: the irrelevance clause of failed_analysis_dropped at a
concrete failing candidate between two good ones. -/
theorem failed_analysis_dropped_witness :
    analyzeAndRankPhotos
      [("a.jpg", Except.ok ⟨PhotoType.FOOD, 9, 9, PhotoRecommendation.HERO, "plat"⟩),
       ("broken.jpg", Except.error "fetch failed"),
       ("b.jpg", Except.ok ⟨PhotoType.AMBIANCE, 6, 6, PhotoRecommendation.GALLERY, "salle"⟩)]
      10 =
    analyzeAndRankPhotos
      [("a.jpg", Except.ok ⟨PhotoType.FOOD, 9, 9, PhotoRecommendation.HERO, "plat"⟩),
       ("b.jpg", Except.ok ⟨PhotoType.AMBIANCE, 6, 6, PhotoRecommendation.GALLERY, "salle"⟩)]
      10 :=
  (failed_analysis_dropped
    [("a.jpg", Except.ok ⟨PhotoType.FOOD, 9, 9, PhotoRecommendation.HERO, "plat"⟩),
     ("broken.jpg", Except.error "fetch failed"),
     ("b.jpg", Except.ok ⟨PhotoType.AMBIANCE, 6, 6, PhotoRecommendation.GALLERY, "salle"⟩)]
    10).2.2
    [("a.jpg", Except.ok ⟨PhotoType.FOOD, 9, 9, PhotoRecommendation.HERO, "plat"⟩)]
    [("b.jpg", Except.ok ⟨PhotoType.AMBIANCE, 6, 6, PhotoRecommendation.GALLERY, "salle"⟩)]
    "broken.jpg" "fetch failed" (by decide)

/-- slugChar is a character that can appear in a slug body: lowercase
alphanumeric or hyphen. -/
def slugChar (c : Char) : Bool := isLowerAlnum c || c = '-'

/-- noTwoHyphens: no two adjacent hyphens. -/
def noTwoHyphens (l : List Char) : Prop :=
  List.Chain' (fun a b => ¬(a = '-' ∧ b = '-')) l

/-- Every character the run-replacement emits is a slug character. -/
theorem replaceRunsGo_chars : ∀ (b : Bool) (l : List Char),
    ∀ c ∈ replaceRunsGo b l, slugChar c = true := by
  intro b l
  induction l generalizing b with
  | nil => intro c hc; simp [replaceRunsGo] at hc
  | cons d rest ih =>
    intro c hc
    unfold replaceRunsGo at hc
    by_cases hd : isLowerAlnum d = true
    · rw [if_pos hd] at hc
      rcases List.mem_cons.mp hc with rfl | hc2
      · simp [slugChar, hd]
      · exact ih false c hc2
    · rw [if_neg hd] at hc
      by_cases hb : b = true
      · rw [if_pos hb] at hc
        exact ih true c hc
      · rw [if_neg hb] at hc
        rcases List.mem_cons.mp hc with rfl | hc2
        · simp [slugChar]
        · exact ih true c hc2

/-- After a hyphen has been emitted for a run, the next emitted
character is alphanumeric. -/
theorem replaceRunsGo_true_head : ∀ (l : List Char) (c : Char),
    (replaceRunsGo true l).head? = some c → isLowerAlnum c = true := by
  intro l
  induction l with
  | nil => intro c hc; simp [replaceRunsGo] at hc
  | cons d rest ih =>
    intro c hc
    unfold replaceRunsGo at hc
    by_cases hd : isLowerAlnum d = true
    · rw [if_pos hd] at hc
      simp only [List.head?_cons, Option.some.injEq] at hc
      exact hc ▸ hd
    · rw [if_neg hd, if_pos rfl] at hc
      exact ih c hc

/-- The run-replacement never emits two adjacent hyphens. -/
theorem replaceRunsGo_noDD : ∀ (b : Bool) (l : List Char),
    noTwoHyphens (replaceRunsGo b l) := by
  intro b l
  induction l generalizing b with
  | nil => simp [replaceRunsGo, noTwoHyphens]
  | cons d rest ih =>
    unfold replaceRunsGo
    by_cases hd : isLowerAlnum d = true
    · rw [if_pos hd]
      refine List.chain'_cons'.mpr ⟨?_, ih false⟩
      intro y _ ⟨hdh, _⟩
      rw [hdh] at hd
      exact absurd hd (by decide)
    · rw [if_neg hd]
      by_cases hb : b = true
      · rw [if_pos hb]; exact ih true
      · rw [if_neg hb]
        refine List.chain'_cons'.mpr ⟨?_, ih true⟩
        intro y hy ⟨_, hyh⟩
        have := replaceRunsGo_true_head rest y hy
        rw [hyh] at this
        exact absurd this (by decide)

/-- Collapsing from the just-emitted-hyphen state equals collapsing
afresh when the list does not begin with a hyphen. -/
theorem collapseGo_true_of_head : ∀ (l : List Char), l.head? ≠ some '-' →
    collapseGo true l = collapseGo false l := by
  intro l hl
  cases l with
  | nil => rfl
  | cons d rest =>
    have hd : ¬ d = '-' := fun h => hl (by rw [h]; rfl)
    unfold collapseGo
    rw [if_neg hd, if_neg hd]

/-- Collapsing hyphen runs is the identity on a list with no two
adjacent hyphens. -/
theorem collapseGo_false_eq : ∀ (l : List Char), noTwoHyphens l →
    collapseGo false l = l := by
  intro l
  induction l with
  | nil => intro _; rfl
  | cons c rest ih =>
    intro h
    obtain ⟨hrel, htail⟩ := List.chain'_cons'.mp h
    by_cases hc : c = '-'
    · subst hc
      unfold collapseGo
      rw [if_pos rfl]
      have hhead : rest.head? ≠ some '-' := by
        intro hh
        exact hrel '-' hh ⟨rfl, rfl⟩
      rw [collapseGo_true_of_head rest hhead, ih htail]
      simp
    · unfold collapseGo
      rw [if_neg hc, ih htail]

/-- Trimming one leading hyphen keeps membership. -/
theorem trimLeadHyphen_mem : ∀ (l : List Char) (c : Char),
    c ∈ trimLeadHyphen l → c ∈ l := by
  intro l c hc
  cases l with
  | nil => exact hc
  | cons d rest =>
    by_cases hd : d = '-'
    · subst hd
      exact List.mem_cons_of_mem _ (by simpa [trimLeadHyphen] using hc)
    · simpa [trimLeadHyphen, hd] using hc

/-- Trimming one leading hyphen preserves the no-adjacent-hyphens
invariant. -/
theorem trimLeadHyphen_noDD : ∀ (l : List Char), noTwoHyphens l →
    noTwoHyphens (trimLeadHyphen l) := by
  intro l h
  cases l with
  | nil => exact h
  | cons d rest =>
    by_cases hd : d = '-'
    · subst hd
      simp only [trimLeadHyphen, if_pos rfl]
      exact (List.chain'_cons'.mp h).2
    · simpa [trimLeadHyphen, hd] using h

/-- After trimming one leading hyphen from a list with no adjacent
hyphens, the head is not a hyphen. -/
theorem trimLeadHyphen_head : ∀ (l : List Char), noTwoHyphens l →
    (trimLeadHyphen l).head? ≠ some '-' := by
  intro l h
  cases l with
  | nil => simp [trimLeadHyphen]
  | cons d rest =>
    obtain ⟨hrel, _⟩ := List.chain'_cons'.mp h
    by_cases hd : d = '-'
    · subst hd
      simp only [trimLeadHyphen]
      intro hh
      exact hrel '-' hh ⟨rfl, rfl⟩
    · simp [trimLeadHyphen, hd]

/-- The no-adjacent-hyphens invariant is symmetric under reversal. -/
theorem noTwoHyphens_reverse : ∀ (l : List Char),
    noTwoHyphens l.reverse ↔ noTwoHyphens l := by
  intro l
  unfold noTwoHyphens
  rw [List.chain'_reverse]
  constructor <;> intro h <;>
    exact h.imp (fun hab => by revert hab; unfold flip; tauto)

/-- The head of the reversal survives trimming one leading hyphen, or
the trim empties the list. -/
theorem reverse_head_trimLead : ∀ (x : List Char),
    (trimLeadHyphen x).reverse.head? = x.reverse.head? ∨ trimLeadHyphen x = [] := by
  intro x
  cases x with
  | nil => right; rfl
  | cons c t =>
    by_cases hc : c = '-'
    · subst hc
      rcases List.eq_nil_or_concat t with rfl | ⟨ys, y, rfl⟩
      · right; rfl
      · left
        simp [trimLeadHyphen, List.reverse_append]
    · left
      simp [trimLeadHyphen, hc]

/-- Re-running the run-replacement from the inside-a-run state equals
running it afresh when the list starts alphanumeric (or is empty). -/
theorem replaceRunsGo_true_of_head : ∀ (l : List Char),
    (∀ c ∈ l, slugChar c = true) → l.head? ≠ some '-' →
    replaceRunsGo true l = replaceRunsGo false l := by
  intro l hall hh
  cases l with
  | nil => rfl
  | cons d rest =>
    have hd : slugChar d = true := hall d (List.mem_cons_self d rest)
    have hd2 : ¬ d = '-' := fun h => hh (by rw [h]; rfl)
    have hdal : isLowerAlnum d = true := by
      rcases Bool.or_eq_true_iff.mp hd with h | h
      · exact h
      · exact absurd (by simpa using h) hd2
    unfold replaceRunsGo
    rw [if_pos hdal, if_pos hdal]

/-- The run-replacement is the identity on a list of slug characters
with no two adjacent hyphens. -/
theorem replaceRunsGo_false_eq : ∀ (l : List Char),
    (∀ c ∈ l, slugChar c = true) → noTwoHyphens l →
    replaceRunsGo false l = l := by
  intro l
  induction l with
  | nil => intro _ _; rfl
  | cons d rest ih =>
    intro hall hdd
    obtain ⟨hrel, htail⟩ := List.chain'_cons'.mp hdd
    have hrest : ∀ c ∈ rest, slugChar c = true :=
      fun c hc => hall c (List.mem_cons_of_mem d hc)
    by_cases hd : isLowerAlnum d = true
    · unfold replaceRunsGo
      rw [if_pos hd, ih hrest htail]
    · have hd2 : d = '-' := by
        rcases Bool.or_eq_true_iff.mp (hall d (List.mem_cons_self d rest)) with h | h
        · exact absurd h hd
        · simpa using h
      subst hd2
      have hhead : rest.head? ≠ some '-' := by
        intro hh
        exact hrel '-' hh ⟨rfl, rfl⟩
      unfold replaceRunsGo
      rw [if_neg hd, if_neg (by simp)]
      rw [replaceRunsGo_true_of_head rest hrest hhead, ih hrest htail]

/-- A lookup in a table whose keys all sit at or above code point 192
misses every smaller character. -/
theorem lookup_none_of_small {β : Type} : ∀ (t : List (Char × β)),
    (∀ p ∈ t, 192 ≤ p.1.toNat) → ∀ (c : Char), c.toNat < 192 →
    t.lookup c = none := by
  intro t
  induction t with
  | nil => intro _ c _; rfl
  | cons kv rest ih =>
    intro hk c hc
    rw [List.lookup_cons]
    have hne : (c == kv.1) = false := by
      rw [beq_eq_false_iff_ne]
      intro he
      have := hk kv (List.mem_cons_self kv rest)
      rw [← he] at this
      omega
    rw [hne]
    exact ih (fun p hp => hk p (List.mem_cons_of_mem kv hp)) c hc

/-- A slug character sits below code point 192 and outside the ASCII
uppercase range. -/
theorem slugChar_small {c : Char} (h : slugChar c = true) :
    c.toNat < 192 ∧ ¬(65 ≤ c.toNat ∧ c.toNat ≤ 90) := by
  rcases Bool.or_eq_true_iff.mp h with h1 | h1
  · rcases Bool.or_eq_true_iff.mp h1 with h2 | h2 <;>
    · rw [Bool.and_eq_true] at h2
      obtain ⟨ha, hb⟩ := h2
      simp only [decide_eq_true_eq] at ha hb
      omega
  · have : c = '-' := by simpa using h1
    subst this
    decide

/-- The lowercase table only holds Latin-1 uppercase keys. -/
theorem lowerTable_keys : ∀ p ∈ lowerTable, 192 ≤ p.1.toNat := by decide

/-- The NFD table only holds Latin-1 accented keys. -/
theorem nfdTable_keys : ∀ p ∈ nfdTable, 192 ≤ p.1.toNat := by decide

/-- toLowerCase fixes every slug character. -/
theorem toLowerChar_fix {c : Char} (h : slugChar c = true) : toLowerChar c = c := by
  obtain ⟨hsmall, hupper⟩ := slugChar_small h
  unfold toLowerChar
  rw [if_neg (by simpa using hupper),
    lookup_none_of_small lowerTable lowerTable_keys c hsmall]
  rfl

/-- NFD fixes every slug character. -/
theorem nfdChar_fix {c : Char} (h : slugChar c = true) : nfdChar c = [c] := by
  obtain ⟨hsmall, _⟩ := slugChar_small h
  unfold nfdChar
  rw [lookup_none_of_small nfdTable nfdTable_keys c hsmall]
  rfl

/-- A slug character is not a combining mark. -/
theorem slugChar_not_combining {c : Char} (h : slugChar c = true) :
    isCombiningMark c = false := by
  obtain ⟨hsmall, _⟩ := slugChar_small h
  simp only [isCombiningMark, Bool.and_eq_false_iff]
  left
  simp only [decide_eq_false_iff_not]
  omega

/-- The lowercase map, the NFD expansion and the combining-mark strip
all fix a list of slug characters. -/
theorem prelude_fix : ∀ (l : List Char), (∀ c ∈ l, slugChar c = true) →
    stripCombining (nfdList (l.map toLowerChar)) = l := by
  intro l
  induction l with
  | nil => intro _; rfl
  | cons d rest ih =>
    intro hall
    have hd := hall d (List.mem_cons_self d rest)
    have hrest : ∀ c ∈ rest, slugChar c = true :=
      fun c hc => hall c (List.mem_cons_of_mem d hc)
    simp only [List.map_cons, nfdList, List.flatMap_cons, toLowerChar_fix hd, nfdChar_fix hd]
    simp only [stripCombining, List.filter_append]
    have h1 : List.filter (fun c => !isCombiningMark c) [d] = [d] := by
      simp [List.filter, slugChar_not_combining hd]
    rw [h1]
    have := ih hrest
    simp only [stripCombining, nfdList] at this
    rw [this]
    rfl

/-- Trimming a leading hyphen does nothing when the head is not a
hyphen. -/
theorem trimLeadHyphen_of_head : ∀ (l : List Char), l.head? ≠ some '-' →
    trimLeadHyphen l = l := by
  intro l hl
  cases l with
  | nil => rfl
  | cons c rest =>
    have hc : ¬ c = '-' := fun h => hl (by rw [h]; rfl)
    simp [trimLeadHyphen, hc]

/-- Trimming the end hyphens of a slug-character list with no adjacent
hyphens yields a canonical slug: slug characters only, no adjacent
hyphens, and no hyphen at either end. -/
theorem trimHyphens_canonical (w : List Char)
    (hchars : ∀ c ∈ w, slugChar c = true) (hdd : noTwoHyphens w) :
    (∀ c ∈ trimHyphens w, slugChar c = true) ∧ noTwoHyphens (trimHyphens w) ∧
    (trimHyphens w).head? ≠ some '-' ∧ (trimHyphens w).reverse.head? ≠ some '-' := by
  have hm1 : ∀ c ∈ trimLeadHyphen w, slugChar c = true :=
    fun c hc => hchars c (trimLeadHyphen_mem w c hc)
  have hm2 : noTwoHyphens (trimLeadHyphen w) := trimLeadHyphen_noDD w hdd
  have hm3 : (trimLeadHyphen w).head? ≠ some '-' := trimLeadHyphen_head w hdd
  have hmr2 : noTwoHyphens (trimLeadHyphen w).reverse :=
    (noTwoHyphens_reverse (trimLeadHyphen w)).mpr hm2
  have hn2 : noTwoHyphens (trimLeadHyphen (trimLeadHyphen w).reverse) :=
    trimLeadHyphen_noDD _ hmr2
  have hn3 : (trimLeadHyphen (trimLeadHyphen w).reverse).head? ≠ some '-' :=
    trimLeadHyphen_head _ hmr2
  refine ⟨?_, ?_, ?_, ?_⟩
  · intro c hc
    unfold trimHyphens at hc
    rw [List.mem_reverse] at hc
    have h2 := trimLeadHyphen_mem _ c hc
    rw [List.mem_reverse] at h2
    exact hm1 c h2
  · unfold trimHyphens
    exact (noTwoHyphens_reverse _).mpr hn2
  · unfold trimHyphens
    rcases reverse_head_trimLead (trimLeadHyphen w).reverse with h | h
    · rw [h, List.reverse_reverse]
      exact hm3
    · rw [h]
      simp
  · unfold trimHyphens
    rw [List.reverse_reverse]
    exact hn3

/-- Every generateSlug output is a canonical slug. -/
theorem generateSlug_canonical (s : String) :
    (∀ c ∈ (generateSlug s).data, slugChar c = true) ∧
    noTwoHyphens (generateSlug s).data ∧
    (generateSlug s).data.head? ≠ some '-' ∧
    (generateSlug s).data.reverse.head? ≠ some '-' := by
  have hchars : ∀ c ∈ replaceRuns (stripCombining (nfdList (s.data.map toLowerChar))),
      slugChar c = true :=
    replaceRunsGo_chars false _
  have hdd : noTwoHyphens (replaceRuns (stripCombining (nfdList (s.data.map toLowerChar)))) :=
    replaceRunsGo_noDD false _
  have hcol : collapseHyphens (replaceRuns (stripCombining (nfdList (s.data.map toLowerChar)))) =
      replaceRuns (stripCombining (nfdList (s.data.map toLowerChar))) :=
    collapseGo_false_eq _ hdd
  have hout : (generateSlug s).data =
      trimHyphens (replaceRuns (stripCombining (nfdList (s.data.map toLowerChar)))) := by
    unfold generateSlug
    rw [hcol]
  rw [hout]
  exact trimHyphens_canonical _ hchars hdd

/-- generateSlug fixes every canonical slug. -/
theorem generateSlug_fix (r : List Char)
    (hchars : ∀ c ∈ r, slugChar c = true) (hdd : noTwoHyphens r)
    (hhead : r.head? ≠ some '-') (hlast : r.reverse.head? ≠ some '-') :
    generateSlug (String.mk r) = String.mk r := by
  unfold generateSlug
  have h1 : stripCombining (nfdList ((String.mk r).data.map toLowerChar)) = r :=
    prelude_fix r hchars
  rw [h1]
  have h2 : replaceRuns r = r := replaceRunsGo_false_eq r hchars hdd
  rw [h2]
  have h3 : collapseHyphens r = r := collapseGo_false_eq r hdd
  rw [h3]
  unfold trimHyphens
  rw [trimLeadHyphen_of_head r hhead, trimLeadHyphen_of_head r.reverse hlast,
    List.reverse_reverse]

/-- C9: generateSlug is idempotent on every input string, and on the
diacritic example it yields the pure hyphenated lowercase ASCII slug
cafe-rosti, which matches the anchored word-hyphen shape and holds no
accented (non-ASCII) character. Determinism holds by construction: the
embedding is a pure function of the input. -/
theorem slug_idempotent :
    (∀ s : String, generateSlug (generateSlug s) = generateSlug s) ∧
    generateSlug "Café – Rösti!" = "cafe-rosti" ∧
    matchesSlugShape (generateSlug "Café – Rösti!").data = true ∧
    (generateSlug "Café – Rösti!").data.all (fun c => c.toNat < 128) = true := by
  refine ⟨?_, by decide, by decide, by decide⟩
  intro s
  obtain ⟨hc, hd, hh, hl⟩ := generateSlug_canonical s
  exact generateSlug_fix (generateSlug s).data hc hd hh hl
